import Mathlib

/-!
Verification development for the rendering core of a 2D/3D drawing surface
abstraction (RenderTarget.cpp). The draw dispatch, state cache and appliers
are embedded shallowly: every device-touching applier invocation is recorded
as an event in a trace, and the persistent cache is explicit state. Machine
floats are modelled by rationals (ideal arithmetic), and the opaque 64-bit
cache identities by natural numbers, since the code only ever compares them
for equality.
-/

set_option maxHeartbeats 1000000

namespace SFMLRT

/-- Opaque 64-bit cache identity (Uint64 m_cacheId in the source). The code
only compares identities for equality and against 0 (meaning none), so no
wraparound arithmetic is involved and Nat is a faithful model. -/
abbrev CacheId := Nat

structure Vec2 where
  (x y : ℚ)
deriving DecidableEq

structure Vec3 where
  (x y z : ℚ)
deriving DecidableEq

/-- Color: four 8-bit channels. Channel values are only copied around by the
code under scrutiny, never computed with, so plain naturals suffice. -/
structure Color where
  (r g b a : Nat)
deriving DecidableEq

/-- Vertex record: position, color, texture coordinates, normal, matching
the layout used by both draw overloads. -/
structure Vertex where
  position : Vec3
  color : Color
  texCoords : Vec2
  normal : Vec3
deriving DecidableEq

/-- Modelled from the spec: the transform/matrix math library (sf::Transform)
is an external collaborator whose source is not part of the core; it is a
4x4 matrix with the usual identity, product and point application. -/
structure Transform where
  (m00 m01 m02 m03 : ℚ)
  (m10 m11 m12 m13 : ℚ)
  (m20 m21 m22 m23 : ℚ)
  (m30 m31 m32 m33 : ℚ)
deriving DecidableEq

def Transform.identity : Transform :=
  ⟨1, 0, 0, 0,
   0, 1, 0, 0,
   0, 0, 1, 0,
   0, 0, 0, 1⟩

/-- Matrix product of two transforms (operator* of the external library). -/
def Transform.mul (a b : Transform) : Transform :=
  ⟨a.m00*b.m00 + a.m01*b.m10 + a.m02*b.m20 + a.m03*b.m30,
   a.m00*b.m01 + a.m01*b.m11 + a.m02*b.m21 + a.m03*b.m31,
   a.m00*b.m02 + a.m01*b.m12 + a.m02*b.m22 + a.m03*b.m32,
   a.m00*b.m03 + a.m01*b.m13 + a.m02*b.m23 + a.m03*b.m33,
   a.m10*b.m00 + a.m11*b.m10 + a.m12*b.m20 + a.m13*b.m30,
   a.m10*b.m01 + a.m11*b.m11 + a.m12*b.m21 + a.m13*b.m31,
   a.m10*b.m02 + a.m11*b.m12 + a.m12*b.m22 + a.m13*b.m32,
   a.m10*b.m03 + a.m11*b.m13 + a.m12*b.m23 + a.m13*b.m33,
   a.m20*b.m00 + a.m21*b.m10 + a.m22*b.m20 + a.m23*b.m30,
   a.m20*b.m01 + a.m21*b.m11 + a.m22*b.m21 + a.m23*b.m31,
   a.m20*b.m02 + a.m21*b.m12 + a.m22*b.m22 + a.m23*b.m32,
   a.m20*b.m03 + a.m21*b.m13 + a.m22*b.m23 + a.m23*b.m33,
   a.m30*b.m00 + a.m31*b.m10 + a.m32*b.m20 + a.m33*b.m30,
   a.m30*b.m01 + a.m31*b.m11 + a.m32*b.m21 + a.m33*b.m31,
   a.m30*b.m02 + a.m31*b.m12 + a.m32*b.m22 + a.m33*b.m32,
   a.m30*b.m03 + a.m31*b.m13 + a.m32*b.m23 + a.m33*b.m33⟩

/-- Application of a transform to a 3D point (operator* on Vector3f): affine
matrix-point product with implicit w = 1. -/
def Transform.transformPoint3 (t : Transform) (v : Vec3) : Vec3 :=
  ⟨t.m00*v.x + t.m01*v.y + t.m02*v.z + t.m03,
   t.m10*v.x + t.m11*v.y + t.m12*v.z + t.m13,
   t.m20*v.x + t.m21*v.y + t.m22*v.z + t.m23⟩

/-- Application of a transform to a 2D point (transformPoint on Vector2f):
the point is lifted with z = 0. -/
def Transform.transformPoint2 (t : Transform) (p : Vec2) : Vec2 :=
  let r := t.transformPoint3 ⟨p.x, p.y, 0⟩
  ⟨r.x, r.y⟩

inductive BlendMode
  | BlendAlpha
  | BlendAdd
  | BlendMultiply
  | BlendNone
deriving DecidableEq

inductive PrimitiveType
  | Points
  | Lines
  | LinesStrip
  | Triangles
  | TrianglesStrip
  | TrianglesFan
  | Quads
deriving DecidableEq

/-- External texture object: only the fields the RenderTarget cache logic
reads are modelled. The memory address is carried explicitly so that
address-reuse scenarios can be expressed; the cache logic must never
consult it. The size/flip data consumed inside the texture applier is
abstracted into the applier event. -/
structure Texture where
  addr : Nat
  cacheId : CacheId
deriving DecidableEq

/-- External shader object, identified by its address (the source compares
shader pointers to detect a change of the effective shader). -/
structure Shader where
  addr : Nat
deriving DecidableEq

/-- External device-resident vertex buffer. -/
structure VertexBuffer where
  addr : Nat
  cacheId : CacheId
  vertexCount : Nat
  primitiveType : PrimitiveType
deriving DecidableEq

/-- Per-draw render states supplied by the caller. -/
structure RenderStates where
  transform : Transform
  blendMode : BlendMode
  texture : Option Texture
  shader : Option Shader
  useVertexCache : Bool
deriving DecidableEq

/-- Modelled from the spec: the capacity of the pre-transform scratch buffer
(StatesCache::VertexCacheSize, declared in the RenderTarget header, which is
not among the sources); the spec fixes it only as a small constant bounding
the per-call transform cost. -/
def VertexCacheSize : Nat := 4

/-- The persistent state cache (StatesCache) owned by the render target. -/
structure StatesCache where
  glStatesSet : Bool
  lastBlendMode : BlendMode
  lastTextureId : CacheId
  lastVertexBufferId : CacheId
  viewChanged : Bool
  useVertexCache : Bool
  vertexCache : List Vertex
deriving DecidableEq

/-- The render target state: the cache plus the pipeline-selection result
(default shader), the transient per-draw shader pointers, and an abstract
view of the device state the appliers own (the model transform last handed
to the transform applier, and the shader program last handed to the shader
applier). -/
structure RenderTarget where
  cache : StatesCache
  defaultShader : Option Shader
  currentNonLegacyShader : Option Shader
  lastNonLegacyShader : Option Shader
  deviceTransform : Transform
  boundShader : Option Shader
deriving DecidableEq

/-- External environment probed by the draw path: the lighting registry and
the availability probes used by resetGLStates. -/
structure Env where
  lightingEnabled : Bool
  enabledLightCount : Nat
  shaderAvailable : Bool
  vertexBufferAvailable : Bool
deriving DecidableEq

/-- One device-touching call issued by the render target. Applier internals
(uniform uploads, GL binds) are abstracted into the single event recording
the applier invocation and its argument. -/
inductive GLCall
  | applyCurrentViewCall
  | applyBlendModeCall (mode : BlendMode)
  | applyTextureCall (texture : Option Texture)
  | applyShaderCall (shader : Option Shader)
  | applyVertexBufferCall (buffer : Option VertexBuffer)
  | applyTransformCall (t : Transform)
  | setClientPointers (data : List Vertex)
  | setBufferPointers
  | setLightUniforms (count : Nat)
  | setAttribPointers
  | disableAttribPointers
  | drawArrays (mode : PrimitiveType) (count : Nat)
  | resetPersistentStates (legacy : Bool)
deriving DecidableEq

/-- Cache identity of an optional texture: 0 denotes no texture. -/
def texIdOf : Option Texture → CacheId
  | none => 0
  | some t => t.cacheId

/-- View applier: abstracted to its event and its cache effect (clears the
viewChanged flag). -/
def applyCurrentView (s : RenderTarget) : RenderTarget × List GLCall :=
  ({s with cache := {s.cache with viewChanged := false}}, [GLCall.applyCurrentViewCall])

/-- Blend-mode applier: records the mode as last applied. -/
def applyBlendMode (mode : BlendMode) (s : RenderTarget) : RenderTarget × List GLCall :=
  ({s with cache := {s.cache with lastBlendMode := mode}}, [GLCall.applyBlendModeCall mode])

/-- Texture applier: records the texture identity (0 if none) as last
applied. -/
def applyTexture (texture : Option Texture) (s : RenderTarget) : RenderTarget × List GLCall :=
  ({s with cache := {s.cache with lastTextureId := texIdOf texture}},
   [GLCall.applyTextureCall texture])

/-- Shader applier: binds (or unbinds, for none) the program. -/
def applyShader (shader : Option Shader) (s : RenderTarget) : RenderTarget × List GLCall :=
  ({s with boundShader := shader}, [GLCall.applyShaderCall shader])

/-- Vertex-buffer applier: binds (or unbinds) the buffer and records its
identity. -/
def applyVertexBuffer (buffer : Option VertexBuffer) (s : RenderTarget) :
    RenderTarget × List GLCall :=
  ({s with cache := {s.cache with lastVertexBufferId := (buffer.map VertexBuffer.cacheId).getD 0}},
   [GLCall.applyVertexBufferCall buffer])

/-- Transform applier: the model transform handed over is recorded as the
device transform in effect for subsequent draw calls. -/
def applyTransform (t : Transform) (s : RenderTarget) : RenderTarget × List GLCall :=
  ({s with deviceTransform := t}, [GLCall.applyTransformCall t])

/-- Modelled from the spec: setView is external to the sources; replacing the
current view marks viewChanged. -/
def setView (s : RenderTarget) : RenderTarget :=
  {s with cache := {s.cache with viewChanged := true}}

/-- resetGLStates: re-establishes the persistent device defaults and resets
the change-tracking flags, so the next draw re-applies everything. The block
of raw glEnable and glDisable calls is abstracted into one event. -/
def resetGLStates (env : Env) (act : Bool) (s : RenderTarget) : RenderTarget × List GLCall :=
  if act then
    let legacy := s.defaultShader.isNone
    let s1 := {s with cache := {s.cache with glStatesSet := true}}
    let r2 := applyBlendMode BlendMode.BlendAlpha s1
    let r3 := applyTransform Transform.identity r2.1
    let r4 := applyTexture none r3.1
    let r5 :=
      if env.shaderAvailable then
        match r4.1.defaultShader with
        | none => applyShader none r4.1
        | some d => applyShader (some d) r4.1
      else (r4.1, [])
    let r6 := if env.vertexBufferAvailable then applyVertexBuffer none r5.1 else (r5.1, [])
    let s7 := {r6.1 with cache := {r6.1.cache with useVertexCache := false}}
    (setView s7, GLCall.resetPersistentStates legacy :: (r2.2 ++ r3.2 ++ r4.2 ++ r5.2 ++ r6.2))
  else (s, [])

/-- Effective-shader resolution at the top of both draw overloads: under the
shader pipeline the current non-legacy shader becomes the per-draw override
if given, else the default shader, and shaderChanged records whether it
differs (by pointer) from the one of the previous draw. The warn-on-missing
toggle is a CPU-side setting on the external shader and is not a device
call, so it is not modelled. -/
def resolveShaderChange (states : RenderStates) (s : RenderTarget) : RenderTarget × Bool :=
  match s.defaultShader with
  | none => (s, false)
  | some d =>
    let cur := match states.shader with
               | some sh => sh
               | none => d
    ({s with currentNonLegacyShader := some cur},
     decide (some cur ≠ s.lastNonLegacyShader))

/-- The block of conditional state applications shared verbatim by both draw
overloads: view iff shaderChanged or viewChanged, blend mode iff it differs
from the cache, texture iff shaderChanged or its identity differs from the
cache, then the shader binding (per-draw override, else default shader if
the shader pipeline is active, else nothing). -/
def applyStatesBlock (shaderChanged : Bool) (states : RenderStates) (s : RenderTarget) :
    RenderTarget × List GLCall :=
  let r3 := if shaderChanged || s.cache.viewChanged then applyCurrentView s else (s, [])
  let r4 := if states.blendMode ≠ r3.1.cache.lastBlendMode then
              applyBlendMode states.blendMode r3.1
            else (r3.1, [])
  let r5 := if shaderChanged || texIdOf states.texture ≠ r4.1.cache.lastTextureId then
              applyTexture states.texture r4.1
            else (r4.1, [])
  let r6 := match states.shader with
            | some sh => applyShader (some sh) r5.1
            | none =>
              match r5.1.defaultShader with
              | some d => applyShader (some d) r5.1
              | none => (r5.1, ([] : List GLCall))
  (r6.1, r3.2 ++ r4.2 ++ r5.2 ++ r6.2)

/-- Writing the pre-transformed vertices into the scratch cache: the first
vertexCount entries receive the transformed positions (color, texture
coordinates and normal copied unchanged); the rest of the scratch buffer is
untouched. -/
def preTransformInto (t : Transform) (verts : List Vertex) (vertexCount : Nat)
    (old : List Vertex) : List Vertex :=
  ((verts.take vertexCount).map
    (fun v => {v with position := t.transformPoint3 v.position})) ++ old.drop vertexCount

/-- Light count pushed as a shader parameter: the enabled-light count when
lighting is globally enabled, else zero. -/
def lightUniformCount (env : Env) : Nat :=
  if env.lightingEnabled then env.enabledLightCount else 0

/-- The non-legacy primitive emission: light uniforms (including viewer
position and per-light parameters, abstracted into one event), the shader
attribute pointer setup, the draw call, and the attribute teardown. The
per-attribute-location conditionals are abstracted into single events since
the locations come from the external shader. -/
def drawNonLegacy (env : Env) (ptype : PrimitiveType) (count : Nat) : List GLCall :=
  [GLCall.setLightUniforms (lightUniformCount env),
   GLCall.setAttribPointers,
   GLCall.drawArrays ptype count,
   GLCall.disableAttribPointers]

/-- First-draw handling at the top of both overloads: establish the
persistent device states on the very first call after activation. -/
def maybeResetGLStates (env : Env) (s : RenderTarget) : RenderTarget × List GLCall :=
  if s.cache.glStatesSet then (s, []) else resetGLStates env true s

/-- The pre-transform decision of the array overload: when the vertex-cache
path is taken, the vertices are pre-transformed into the scratch cache and,
unless the previous draw already left an identity transform loaded, the
identity transform is applied; otherwise the submission transform is
applied directly. -/
def arrayTransformStep (useVC : Bool) (t : Transform) (verts : List Vertex)
    (vertexCount : Nat) (s : RenderTarget) : RenderTarget × List GLCall :=
  if useVC then
    let sB := {s with cache := {s.cache with
                 vertexCache := preTransformInto t verts vertexCount s.cache.vertexCache}}
    if sB.cache.useVertexCache then (sB, ([] : List GLCall))
    else applyTransform Transform.identity sB
  else applyTransform t s

/-- The array overload unbinds any bound vertex buffer before sourcing from
a raw array. -/
def unbindVertexBufferStep (s : RenderTarget) : RenderTarget × List GLCall :=
  if s.cache.lastVertexBufferId ≠ 0 then applyVertexBuffer none s else (s, [])

/-- The buffer overload binds the buffer iff its identity differs from the
cached last bound identity. -/
def bindVertexBufferStep (buffer : VertexBuffer) (s : RenderTarget) :
    RenderTarget × List GLCall :=
  if buffer.cacheId ≠ s.cache.lastVertexBufferId then applyVertexBuffer (some buffer) s
  else (s, [])

/-- Primitive emission of the array overload: under the legacy pipeline the
client-side component pointers are issued (to the scratch cache when the
pre-transform path is taken, and not at all when the previous draw already
pointed at the scratch cache), then the draw call; under the shader
pipeline, the non-legacy emission. -/
def arrayEmit (env : Env) (useVC : Bool) (verts : List Vertex)
    (ptype : PrimitiveType) (vertexCount : Nat) (s : RenderTarget) : List GLCall :=
  if s.defaultShader.isNone then
    (match (if useVC then
              (if s.cache.useVertexCache then none else some s.cache.vertexCache)
            else some verts : Option (List Vertex)) with
     | some data => [GLCall.setClientPointers data]
     | none => ([] : List GLCall)) ++ [GLCall.drawArrays ptype vertexCount]
  else drawNonLegacy env ptype vertexCount

/-- Primitive emission of the buffer overload. -/
def bufferEmit (env : Env) (buffer : VertexBuffer) (s : RenderTarget) : List GLCall :=
  if s.defaultShader.isNone then
    [GLCall.setBufferPointers, GLCall.drawArrays buffer.primitiveType buffer.vertexCount]
  else drawNonLegacy env buffer.primitiveType buffer.vertexCount

/-- After the draw call, a shader bound in legacy mode as a per-draw
override is unbound. -/
def legacyUnbindStep (hasOverride : Bool) (s : RenderTarget) : RenderTarget × List GLCall :=
  if hasOverride && s.defaultShader.isNone then applyShader none s else (s, [])

/-- End-of-draw bookkeeping of the shader pipeline: record the effective
shader as last used and clear the transient current pointer. -/
def finishDraw (s : RenderTarget) : RenderTarget :=
  if s.defaultShader.isSome then
    {s with lastNonLegacyShader := s.currentNonLegacyShader,
            currentNonLegacyShader := none}
  else s

/-- The array draw overload, draw(const Vertex*, unsigned int, PrimitiveType,
const RenderStates&). A null vertex pointer is the none case. Returns the
new target state and the trace of device calls. -/
def drawVertices (env : Env) (act : Bool) (s0 : RenderTarget)
    (vertices : Option (List Vertex)) (vertexCount : Nat)
    (ptype : PrimitiveType) (states : RenderStates) : RenderTarget × List GLCall :=
  match vertices with
  | none => (s0, [])
  | some verts =>
    if vertexCount = 0 then (s0, [])
    else if act then
      let r1 := maybeResetGLStates env s0
      let rc := resolveShaderChange states r1.1
      let useVC := rc.1.defaultShader.isNone
                   && decide (vertexCount ≤ VertexCacheSize)
                   && states.useVertexCache
      let r2 := arrayTransformStep useVC states.transform verts vertexCount rc.1
      let r5 := applyStatesBlock rc.2 states r2.1
      let r7 := unbindVertexBufferStep r5.1
      let emit := arrayEmit env useVC verts ptype vertexCount r7.1
      let r8 := legacyUnbindStep states.shader.isSome r7.1
      let sD := {r8.1 with cache := {r8.1.cache with useVertexCache := useVC}}
      (finishDraw sD, r1.2 ++ r2.2 ++ r5.2 ++ r7.2 ++ emit ++ r8.2)
    else (s0, [])

/-- The vertex-buffer draw overload, draw(const VertexBuffer&, const
RenderStates&). Note that the cache field useVertexCache is left untouched
by this overload, exactly as in the source. -/
def drawVertexBufferOp (env : Env) (act : Bool) (s0 : RenderTarget)
    (buffer : VertexBuffer) (states : RenderStates) : RenderTarget × List GLCall :=
  if buffer.vertexCount = 0 then (s0, [])
  else if act then
    let r1 := maybeResetGLStates env s0
    let rc := resolveShaderChange states r1.1
    let r2 := applyTransform states.transform rc.1
    let r5 := applyStatesBlock rc.2 states r2.1
    let r7 := bindVertexBufferStep buffer r5.1
    let emit := bufferEmit env buffer r7.1
    let r8 := legacyUnbindStep states.shader.isSome r7.1
    (finishDraw r8.1, r1.2 ++ r2.2 ++ r5.2 ++ r7.2 ++ emit ++ r8.2)
  else (s0, [])

/-- A draw submission through either primitive overload. -/
inductive DrawCmd
  | array (vertices : Option (List Vertex)) (vertexCount : Nat)
          (ptype : PrimitiveType) (states : RenderStates)
  | buffer (buf : VertexBuffer) (states : RenderStates)
deriving DecidableEq

def drawCmd (env : Env) (act : Bool) (s : RenderTarget) : DrawCmd → RenderTarget × List GLCall
  | DrawCmd.array v n pt st => drawVertices env act s v n pt st
  | DrawCmd.buffer b st => drawVertexBufferOp env act s b st

def cmdStates : DrawCmd → RenderStates
  | DrawCmd.array _ _ _ st => st
  | DrawCmd.buffer _ st => st

/-- The vertex-buffer identity a submission leaves as last bound: the array
overload unbinds any buffer (identity 0), the buffer overload binds its
buffer. -/
def cmdBufId : DrawCmd → CacheId
  | DrawCmd.array _ _ _ _ => 0
  | DrawCmd.buffer b _ => b.cacheId

/-- Whether a submission passes the emptiness guards at the top of its
overload. -/
def cmdExecutes : DrawCmd → Bool
  | DrawCmd.array v n _ _ => v.isSome && decide (0 < n)
  | DrawCmd.buffer b _ => decide (0 < b.vertexCount)

/-- The primitive topology a submission draws. -/
def cmdPType : DrawCmd → PrimitiveType
  | DrawCmd.array _ _ pt _ => pt
  | DrawCmd.buffer b _ => b.primitiveType

/-- The vertex count a submission draws. -/
def cmdCount : DrawCmd → Nat
  | DrawCmd.array _ n _ _ => n
  | DrawCmd.buffer b _ => b.vertexCount

/-- Pipeline selection (setupNonLegacyPipeline): the default shader exists
only if the lighting-capable shading backend is available, the parsed
supported shading-language version is strictly greater than 1.29, and the
generated default program pair compiles. Version parsing and program
compilation happen in external collaborators and enter as inputs. -/
def setupNonLegacyPipeline (hasShaderLighting : Bool) (versionNumber : ℚ)
    (compileOk : Bool) (shaderObj : Shader) : Option Shader :=
  if !hasShaderLighting then none
  else if (1.29 : ℚ) < versionNumber then
    (if compileOk then some shaderObj else none)
  else none

/-- Target initialization: resets the views, clears glStatesSet so the first
draw re-establishes persistent state, and runs the pipeline selection. -/
def initializeTarget (hasShaderLighting : Bool) (versionNumber : ℚ)
    (compileOk : Bool) (shaderObj : Shader) (s : RenderTarget) : RenderTarget :=
  {s with cache := {s.cache with glStatesSet := false},
          defaultShader := setupNonLegacyPipeline hasShaderLighting versionNumber
                             compileOk shaderObj}

/-- Normalized viewport rectangle of a view, components in [0,1]. -/
structure FloatRect where
  (left top width height : ℚ)
deriving DecidableEq

structure IntRect where
  (left top width height : ℤ)
deriving DecidableEq

/-- Truncation toward zero, the semantics of static_cast from float to int. -/
def truncInt (q : ℚ) : ℤ :=
  if 0 ≤ q then ⌊q⌋ else -⌊-q⌋

/-- getViewport: maps the normalized viewport rect of a view to integer pixel
coordinates of the target surface. -/
def getViewport (sizeX sizeY : Nat) (viewport : FloatRect) : IntRect :=
  let width : ℚ := (sizeX : ℚ)
  let height : ℚ := (sizeY : ℚ)
  ⟨truncInt ((0.5 : ℚ) + width * viewport.left),
   truncInt ((0.5 : ℚ) + height * viewport.top),
   truncInt (width * viewport.width),
   truncInt (height * viewport.height)⟩

/-- Modelled from the spec: the View class is an external collaborator; it
carries a normalized viewport rect, a projection transform, its stored
inverse, and the camera view transform. -/
structure ViewM where
  viewport : FloatRect
  transform : Transform
  inverseTransform : Transform
  viewTransform : Transform
deriving DecidableEq

/-- mapPixelToCoords: pixel to viewport-relative homogeneous coordinates,
then through the stored inverse of the view transform. -/
def mapPixelToCoords (sizeX sizeY : Nat) (view : ViewM) (point : ℤ × ℤ) : Vec2 :=
  let vp := getViewport sizeX sizeY view.viewport
  let nx : ℚ := -1 + 2 * (((point.1 : ℚ)) - (vp.left : ℚ)) / (vp.width : ℚ)
  let ny : ℚ := 1 - 2 * (((point.2 : ℚ)) - (vp.top : ℚ)) / (vp.height : ℚ)
  view.inverseTransform.transformPoint2 ⟨nx, ny⟩

/-- mapCoordsToPixel: world point through projection times view transform,
then to viewport pixel coordinates with truncating casts. -/
def mapCoordsToPixel (sizeX sizeY : Nat) (view : ViewM) (point : Vec3) : ℤ × ℤ :=
  let n := (view.transform.mul view.viewTransform).transformPoint3 point
  let vp := getViewport sizeX sizeY view.viewport
  (truncInt ((n.x + 1) / 2 * (vp.width : ℚ) + (vp.left : ℚ)),
   truncInt ((-n.y + 1) / 2 * (vp.height : ℚ) + (vp.top : ℚ)))

/-- Ideal-arithmetic variant of mapCoordsToPixel: no truncating casts, pixel
coordinates stay rational. -/
def mapCoordsToPixelIdeal (sizeX sizeY : Nat) (view : ViewM) (point : Vec3) : Vec2 :=
  let n := (view.transform.mul view.viewTransform).transformPoint3 point
  let vp := getViewport sizeX sizeY view.viewport
  ⟨(n.x + 1) / 2 * (vp.width : ℚ) + (vp.left : ℚ),
   (-n.y + 1) / 2 * (vp.height : ℚ) + (vp.top : ℚ)⟩

/-- Ideal-arithmetic variant of mapPixelToCoords: accepts rational pixel
coordinates. -/
def mapPixelToCoordsIdeal (sizeX sizeY : Nat) (view : ViewM) (point : Vec2) : Vec2 :=
  let vp := getViewport sizeX sizeY view.viewport
  let nx : ℚ := -1 + 2 * (point.x - (vp.left : ℚ)) / (vp.width : ℚ)
  let ny : ℚ := 1 - 2 * (point.y - (vp.top : ℚ)) / (vp.height : ℚ)
  view.inverseTransform.transformPoint2 ⟨nx, ny⟩

/-- Modelled from the spec: the projection transform the default view holds
after View.reset over the full surface of size w by h: an orthographic map
sending the world rect (0,0,w,h) to normalized device coordinates with the
y axis flipped. -/
def orthoTransform (w h : ℚ) : Transform :=
  ⟨2/w, 0,    0, -1,
   0,   -2/h, 0, 1,
   0,   0,    1, 0,
   0,   0,    0, 1⟩

/-- Modelled from the spec: the stored inverse of the default-view
projection. -/
def orthoInverse (w h : ℚ) : Transform :=
  ⟨w/2, 0,    0, w/2,
   0,   -h/2, 0, h/2,
   0,   0,    1, 0,
   0,   0,    0, 1⟩

/-- Modelled from the spec: the default view of a target of size w by h:
full-surface viewport, orthographic projection with stored inverse, and an
identity camera transform. -/
def defaultViewM (w h : Nat) : ViewM :=
  ⟨⟨0, 0, 1, 1⟩, orthoTransform (w : ℚ) (h : ℚ), orthoInverse (w : ℚ) (h : ℚ),
   Transform.identity⟩

def GLCall.isDrawArrays : GLCall → Bool
  | GLCall.drawArrays _ _ => true
  | _ => false

def GLCall.isApplyShader : GLCall → Bool
  | GLCall.applyShaderCall _ => true
  | _ => false

/-- The three appliers whose invocation is gated on the state cache. -/
def GLCall.isCachedApplier : GLCall → Bool
  | GLCall.applyBlendModeCall _ => true
  | GLCall.applyTextureCall _ => true
  | GLCall.applyVertexBufferCall _ => true
  | _ => false


/-- Fixture environment for witness instantiations: legacy everything. -/
def wEnv : Env := ⟨false, 0, false, false⟩

/-- Fixture vertex for witness instantiations. -/
def wVertex : Vertex := ⟨⟨0, 0, 0⟩, ⟨255, 255, 255, 255⟩, ⟨0, 0⟩, ⟨0, 0, 1⟩⟩

/-- Fixture target in steady legacy state for witness instantiations. -/
def wTarget : RenderTarget :=
  ⟨⟨true, BlendMode.BlendAlpha, 0, 0, false, false, []⟩, none, none, none,
   Transform.identity, none⟩

/-- Fixture render states for witness instantiations. -/
def wStates : RenderStates := ⟨Transform.identity, BlendMode.BlendAlpha, none, none, false⟩

/-- Claim C1 first fixture submission: a one-vertex array draw with a texture
of identity 1 at address 100. -/
def c1cmdA : DrawCmd :=
  DrawCmd.array (some [wVertex]) 1 PrimitiveType.Triangles
    {wStates with texture := some ⟨100, 1⟩}

/-- Claim C1 second fixture submission: a one-vertex array draw with a
texture of identity 2 reusing address 100. -/
def c1cmdB : DrawCmd :=
  DrawCmd.array (some [wVertex]) 1 PrimitiveType.Triangles
    {wStates with texture := some ⟨100, 2⟩}

/-- Claim C2 second fixture submission for the changed-texture case. -/
def c2cmdC : DrawCmd :=
  DrawCmd.array (some [wVertex]) 1 PrimitiveType.Triangles
    {wStates with texture := some ⟨200, 7⟩}

/-- Claim C7 fixture submission: a legacy draw with a per-draw shader
override. -/
def c7cmd : DrawCmd :=
  DrawCmd.array (some [wVertex]) 1 PrimitiveType.Triangles
    {wStates with shader := some ⟨50⟩}

/-- Claim C8 fixture render states requesting the pre-transform path. -/
def c8states : RenderStates := {wStates with useVertexCache := true}

/-- Claim C8 fixture buffer with three vertices. -/
def c8buffer : VertexBuffer := ⟨300, 9, 3, PrimitiveType.Triangles⟩

/-- Claim C10 fixture submission: a legacy buffer draw with a per-draw
shader override. -/
def c10cmd : DrawCmd :=
  DrawCmd.buffer ⟨400, 11, 2, PrimitiveType.Lines⟩ {wStates with shader := some ⟨50⟩}

/-- Recognizer for transform-applier events. -/
def GLCall.isApplyTransform : GLCall → Bool
  | GLCall.applyTransformCall _ => true
  | _ => false

/-- Claim C4 fixture: a non-identity (translation) model transform. -/
def c4transform : Transform :=
  ⟨1, 0, 0, 5,
   0, 1, 0, 7,
   0, 0, 1, 0,
   0, 0, 0, 1⟩

/-- Claim C4 fixture render states submitting under the non-identity
transform. -/
def c4bufStates : RenderStates := {wStates with transform := c4transform}

/-- Claim C4 fixture target state: a small legacy pre-transform draw (which
sets the cache flag and leaves the identity transform loaded) followed by
an executed vertex-buffer draw submitted under the non-identity transform,
which loads that transform but leaves the cache flag stale at true. -/
def c4state2 : RenderTarget :=
  (drawVertexBufferOp wEnv true
    (drawVertices wEnv true wTarget (some [wVertex]) 1 PrimitiveType.Triangles c8states).1
    c8buffer c4bufStates).1

end SFMLRT

namespace SFMLRT

@[simp] lemma applyCurrentView_fst (s : RenderTarget) :
    (applyCurrentView s).1 = {s with cache := {s.cache with viewChanged := false}} := rfl

@[simp] lemma applyCurrentView_snd (s : RenderTarget) :
    (applyCurrentView s).2 = [GLCall.applyCurrentViewCall] := rfl

@[simp] lemma applyBlendMode_fst (m : BlendMode) (s : RenderTarget) :
    (applyBlendMode m s).1 = {s with cache := {s.cache with lastBlendMode := m}} := rfl

@[simp] lemma applyBlendMode_snd (m : BlendMode) (s : RenderTarget) :
    (applyBlendMode m s).2 = [GLCall.applyBlendModeCall m] := rfl

@[simp] lemma applyTexture_fst (t : Option Texture) (s : RenderTarget) :
    (applyTexture t s).1 = {s with cache := {s.cache with lastTextureId := texIdOf t}} := rfl

@[simp] lemma applyTexture_snd (t : Option Texture) (s : RenderTarget) :
    (applyTexture t s).2 = [GLCall.applyTextureCall t] := rfl

@[simp] lemma applyShader_fst (sh : Option Shader) (s : RenderTarget) :
    (applyShader sh s).1 = {s with boundShader := sh} := rfl

@[simp] lemma applyShader_snd (sh : Option Shader) (s : RenderTarget) :
    (applyShader sh s).2 = [GLCall.applyShaderCall sh] := rfl

@[simp] lemma applyVertexBuffer_fst (b : Option VertexBuffer) (s : RenderTarget) :
    (applyVertexBuffer b s).1 =
      {s with cache := {s.cache with lastVertexBufferId := (b.map VertexBuffer.cacheId).getD 0}} := rfl

@[simp] lemma applyVertexBuffer_snd (b : Option VertexBuffer) (s : RenderTarget) :
    (applyVertexBuffer b s).2 = [GLCall.applyVertexBufferCall b] := rfl

@[simp] lemma applyTransform_fst (t : Transform) (s : RenderTarget) :
    (applyTransform t s).1 = {s with deviceTransform := t} := rfl

@[simp] lemma applyTransform_snd (t : Transform) (s : RenderTarget) :
    (applyTransform t s).2 = [GLCall.applyTransformCall t] := rfl

@[simp] lemma maybeReset_fst_glStatesSet (env : Env) (s : RenderTarget) :
    (maybeResetGLStates env s).1.cache.glStatesSet = true := by
  unfold maybeResetGLStates resetGLStates
  cases hds : s.defaultShader <;> (repeat' split) <;> simp_all [setView]

@[simp] lemma maybeReset_fst_defaultShader (env : Env) (s : RenderTarget) :
    (maybeResetGLStates env s).1.defaultShader = s.defaultShader := by
  unfold maybeResetGLStates resetGLStates
  cases hds : s.defaultShader <;> (repeat' split) <;> simp_all [setView]

@[simp] lemma maybeReset_fst_currentNonLegacyShader (env : Env) (s : RenderTarget) :
    (maybeResetGLStates env s).1.currentNonLegacyShader = s.currentNonLegacyShader := by
  unfold maybeResetGLStates resetGLStates
  cases hds : s.defaultShader <;> (repeat' split) <;> simp_all [setView]

@[simp] lemma maybeReset_fst_lastNonLegacyShader (env : Env) (s : RenderTarget) :
    (maybeResetGLStates env s).1.lastNonLegacyShader = s.lastNonLegacyShader := by
  unfold maybeResetGLStates resetGLStates
  cases hds : s.defaultShader <;> (repeat' split) <;> simp_all [setView]

lemma maybeReset_of_glStatesSet (env : Env) (s : RenderTarget)
    (h : s.cache.glStatesSet = true) : maybeResetGLStates env s = (s, []) := by
  unfold maybeResetGLStates
  simp [h]

@[simp] lemma maybeReset_fst_deviceTransform (env : Env) (s : RenderTarget) :
    (maybeResetGLStates env s).1.deviceTransform =
      (if s.cache.glStatesSet then s.deviceTransform else Transform.identity) := by
  unfold maybeResetGLStates resetGLStates
  cases hds : s.defaultShader <;> (repeat' split) <;> simp_all [setView]

@[simp] lemma maybeReset_fst_useVertexCache (env : Env) (s : RenderTarget) :
    (maybeResetGLStates env s).1.cache.useVertexCache =
      (s.cache.glStatesSet && s.cache.useVertexCache) := by
  unfold maybeResetGLStates resetGLStates
  cases hds : s.defaultShader <;> (repeat' split) <;> simp_all [setView]

@[simp] lemma maybeReset_fst_vertexCache (env : Env) (s : RenderTarget) :
    (maybeResetGLStates env s).1.cache.vertexCache = s.cache.vertexCache := by
  unfold maybeResetGLStates resetGLStates
  cases hds : s.defaultShader <;> (repeat' split) <;> simp_all [setView]


@[simp] lemma resolve_fst_cache (st : RenderStates) (s : RenderTarget) :
    (resolveShaderChange st s).1.cache = s.cache := by
  unfold resolveShaderChange
  cases hds : s.defaultShader <;> simp [hds]

@[simp] lemma resolve_fst_defaultShader (st : RenderStates) (s : RenderTarget) :
    (resolveShaderChange st s).1.defaultShader = s.defaultShader := by
  unfold resolveShaderChange
  cases hds : s.defaultShader <;> simp [hds]

@[simp] lemma resolve_fst_deviceTransform (st : RenderStates) (s : RenderTarget) :
    (resolveShaderChange st s).1.deviceTransform = s.deviceTransform := by
  unfold resolveShaderChange
  cases hds : s.defaultShader <;> simp [hds]

@[simp] lemma resolve_fst_lastNonLegacyShader (st : RenderStates) (s : RenderTarget) :
    (resolveShaderChange st s).1.lastNonLegacyShader = s.lastNonLegacyShader := by
  unfold resolveShaderChange
  cases hds : s.defaultShader <;> simp [hds]

@[simp] lemma resolve_fst_boundShader (st : RenderStates) (s : RenderTarget) :
    (resolveShaderChange st s).1.boundShader = s.boundShader := by
  unfold resolveShaderChange
  cases hds : s.defaultShader <;> simp [hds]

lemma resolve_of_legacy (st : RenderStates) (s : RenderTarget)
    (h : s.defaultShader = none) : resolveShaderChange st s = (s, false) := by
  unfold resolveShaderChange
  simp [h]

lemma resolve_of_nonLegacy (st : RenderStates) (s : RenderTarget) (d : Shader)
    (h : s.defaultShader = some d) :
    (resolveShaderChange st s).1.currentNonLegacyShader = some (st.shader.getD d)
    ∧ (resolveShaderChange st s).2 =
        decide (some (st.shader.getD d) ≠ s.lastNonLegacyShader) := by
  unfold resolveShaderChange
  cases hsh : st.shader <;> simp [h, hsh]

@[simp] lemma arrayTransformStep_fst_glStatesSet (u : Bool) (t : Transform)
    (verts : List Vertex) (n : Nat) (s : RenderTarget) :
    (arrayTransformStep u t verts n s).1.cache.glStatesSet = s.cache.glStatesSet := by
  unfold arrayTransformStep
  cases u <;> cases hv : s.cache.useVertexCache <;> simp [hv]

@[simp] lemma arrayTransformStep_fst_lastBlendMode (u : Bool) (t : Transform)
    (verts : List Vertex) (n : Nat) (s : RenderTarget) :
    (arrayTransformStep u t verts n s).1.cache.lastBlendMode = s.cache.lastBlendMode := by
  unfold arrayTransformStep
  cases u <;> cases hv : s.cache.useVertexCache <;> simp [hv]

@[simp] lemma arrayTransformStep_fst_lastTextureId (u : Bool) (t : Transform)
    (verts : List Vertex) (n : Nat) (s : RenderTarget) :
    (arrayTransformStep u t verts n s).1.cache.lastTextureId = s.cache.lastTextureId := by
  unfold arrayTransformStep
  cases u <;> cases hv : s.cache.useVertexCache <;> simp [hv]

@[simp] lemma arrayTransformStep_fst_lastVertexBufferId (u : Bool) (t : Transform)
    (verts : List Vertex) (n : Nat) (s : RenderTarget) :
    (arrayTransformStep u t verts n s).1.cache.lastVertexBufferId = s.cache.lastVertexBufferId := by
  unfold arrayTransformStep
  cases u <;> cases hv : s.cache.useVertexCache <;> simp [hv]

@[simp] lemma arrayTransformStep_fst_viewChanged (u : Bool) (t : Transform)
    (verts : List Vertex) (n : Nat) (s : RenderTarget) :
    (arrayTransformStep u t verts n s).1.cache.viewChanged = s.cache.viewChanged := by
  unfold arrayTransformStep
  cases u <;> cases hv : s.cache.useVertexCache <;> simp [hv]

@[simp] lemma arrayTransformStep_fst_useVertexCache (u : Bool) (t : Transform)
    (verts : List Vertex) (n : Nat) (s : RenderTarget) :
    (arrayTransformStep u t verts n s).1.cache.useVertexCache = s.cache.useVertexCache := by
  unfold arrayTransformStep
  cases u <;> cases hv : s.cache.useVertexCache <;> simp [hv]

@[simp] lemma arrayTransformStep_fst_defaultShader (u : Bool) (t : Transform)
    (verts : List Vertex) (n : Nat) (s : RenderTarget) :
    (arrayTransformStep u t verts n s).1.defaultShader = s.defaultShader := by
  unfold arrayTransformStep
  cases u <;> cases hv : s.cache.useVertexCache <;> simp [hv]

@[simp] lemma arrayTransformStep_fst_currentNonLegacyShader (u : Bool) (t : Transform)
    (verts : List Vertex) (n : Nat) (s : RenderTarget) :
    (arrayTransformStep u t verts n s).1.currentNonLegacyShader = s.currentNonLegacyShader := by
  unfold arrayTransformStep
  cases u <;> cases hv : s.cache.useVertexCache <;> simp [hv]

@[simp] lemma arrayTransformStep_fst_lastNonLegacyShader (u : Bool) (t : Transform)
    (verts : List Vertex) (n : Nat) (s : RenderTarget) :
    (arrayTransformStep u t verts n s).1.lastNonLegacyShader = s.lastNonLegacyShader := by
  unfold arrayTransformStep
  cases u <;> cases hv : s.cache.useVertexCache <;> simp [hv]

@[simp] lemma arrayTransformStep_fst_boundShader (u : Bool) (t : Transform)
    (verts : List Vertex) (n : Nat) (s : RenderTarget) :
    (arrayTransformStep u t verts n s).1.boundShader = s.boundShader := by
  unfold arrayTransformStep
  cases u <;> cases hv : s.cache.useVertexCache <;> simp [hv]

@[simp] lemma arrayTransformStep_fst_vertexCache (u : Bool) (t : Transform)
    (verts : List Vertex) (n : Nat) (s : RenderTarget) :
    (arrayTransformStep u t verts n s).1.cache.vertexCache =
      (if u then preTransformInto t verts n s.cache.vertexCache else s.cache.vertexCache) := by
  unfold arrayTransformStep
  cases u <;> cases hv : s.cache.useVertexCache <;> simp [hv]

@[simp] lemma arrayTransformStep_fst_deviceTransform (u : Bool) (t : Transform)
    (verts : List Vertex) (n : Nat) (s : RenderTarget) :
    (arrayTransformStep u t verts n s).1.deviceTransform =
      (if u then (if s.cache.useVertexCache then s.deviceTransform else Transform.identity)
       else t) := by
  unfold arrayTransformStep
  cases u <;> cases hv : s.cache.useVertexCache <;> simp [hv]

@[simp] lemma arrayTransformStep_snd (u : Bool) (t : Transform)
    (verts : List Vertex) (n : Nat) (s : RenderTarget) :
    (arrayTransformStep u t verts n s).2 =
      (if u then (if s.cache.useVertexCache then []
                  else [GLCall.applyTransformCall Transform.identity])
       else [GLCall.applyTransformCall t]) := by
  unfold arrayTransformStep
  cases u <;> cases hv : s.cache.useVertexCache <;> simp [hv]


@[simp] lemma applyStatesBlock_fst_viewChanged (sc : Bool) (st : RenderStates) (s : RenderTarget) :
    (applyStatesBlock sc st s).1.cache.viewChanged = false := by
  unfold applyStatesBlock
  cases sc <;> cases hv : s.cache.viewChanged <;>
    by_cases hb : st.blendMode = s.cache.lastBlendMode <;>
    by_cases ht : texIdOf st.texture = s.cache.lastTextureId <;>
    cases hsh : st.shader <;> cases hds : s.defaultShader <;>
    simp [hv, hb, ht, hsh, hds]

@[simp] lemma applyStatesBlock_fst_lastBlendMode (sc : Bool) (st : RenderStates) (s : RenderTarget) :
    (applyStatesBlock sc st s).1.cache.lastBlendMode = st.blendMode := by
  unfold applyStatesBlock
  cases sc <;> cases hv : s.cache.viewChanged <;>
    by_cases hb : st.blendMode = s.cache.lastBlendMode <;>
    by_cases ht : texIdOf st.texture = s.cache.lastTextureId <;>
    cases hsh : st.shader <;> cases hds : s.defaultShader <;>
    simp [hv, hb, ht, hsh, hds]

@[simp] lemma applyStatesBlock_fst_lastTextureId (sc : Bool) (st : RenderStates) (s : RenderTarget) :
    (applyStatesBlock sc st s).1.cache.lastTextureId = texIdOf st.texture := by
  unfold applyStatesBlock
  cases sc <;> cases hv : s.cache.viewChanged <;>
    by_cases hb : st.blendMode = s.cache.lastBlendMode <;>
    by_cases ht : texIdOf st.texture = s.cache.lastTextureId <;>
    cases hsh : st.shader <;> cases hds : s.defaultShader <;>
    simp [hv, hb, ht, hsh, hds]

@[simp] lemma applyStatesBlock_fst_glStatesSet (sc : Bool) (st : RenderStates) (s : RenderTarget) :
    (applyStatesBlock sc st s).1.cache.glStatesSet = s.cache.glStatesSet := by
  unfold applyStatesBlock
  cases sc <;> cases hv : s.cache.viewChanged <;>
    by_cases hb : st.blendMode = s.cache.lastBlendMode <;>
    by_cases ht : texIdOf st.texture = s.cache.lastTextureId <;>
    cases hsh : st.shader <;> cases hds : s.defaultShader <;>
    simp [hv, hb, ht, hsh, hds]

@[simp] lemma applyStatesBlock_fst_useVertexCache (sc : Bool) (st : RenderStates) (s : RenderTarget) :
    (applyStatesBlock sc st s).1.cache.useVertexCache = s.cache.useVertexCache := by
  unfold applyStatesBlock
  cases sc <;> cases hv : s.cache.viewChanged <;>
    by_cases hb : st.blendMode = s.cache.lastBlendMode <;>
    by_cases ht : texIdOf st.texture = s.cache.lastTextureId <;>
    cases hsh : st.shader <;> cases hds : s.defaultShader <;>
    simp [hv, hb, ht, hsh, hds]

@[simp] lemma applyStatesBlock_fst_vertexCache (sc : Bool) (st : RenderStates) (s : RenderTarget) :
    (applyStatesBlock sc st s).1.cache.vertexCache = s.cache.vertexCache := by
  unfold applyStatesBlock
  cases sc <;> cases hv : s.cache.viewChanged <;>
    by_cases hb : st.blendMode = s.cache.lastBlendMode <;>
    by_cases ht : texIdOf st.texture = s.cache.lastTextureId <;>
    cases hsh : st.shader <;> cases hds : s.defaultShader <;>
    simp [hv, hb, ht, hsh, hds]

@[simp] lemma applyStatesBlock_fst_lastVertexBufferId (sc : Bool) (st : RenderStates) (s : RenderTarget) :
    (applyStatesBlock sc st s).1.cache.lastVertexBufferId = s.cache.lastVertexBufferId := by
  unfold applyStatesBlock
  cases sc <;> cases hv : s.cache.viewChanged <;>
    by_cases hb : st.blendMode = s.cache.lastBlendMode <;>
    by_cases ht : texIdOf st.texture = s.cache.lastTextureId <;>
    cases hsh : st.shader <;> cases hds : s.defaultShader <;>
    simp [hv, hb, ht, hsh, hds]

@[simp] lemma applyStatesBlock_fst_defaultShader (sc : Bool) (st : RenderStates) (s : RenderTarget) :
    (applyStatesBlock sc st s).1.defaultShader = s.defaultShader := by
  unfold applyStatesBlock
  cases sc <;> cases hv : s.cache.viewChanged <;>
    by_cases hb : st.blendMode = s.cache.lastBlendMode <;>
    by_cases ht : texIdOf st.texture = s.cache.lastTextureId <;>
    cases hsh : st.shader <;> cases hds : s.defaultShader <;>
    simp [hv, hb, ht, hsh, hds]

@[simp] lemma applyStatesBlock_fst_currentNonLegacyShader (sc : Bool) (st : RenderStates) (s : RenderTarget) :
    (applyStatesBlock sc st s).1.currentNonLegacyShader = s.currentNonLegacyShader := by
  unfold applyStatesBlock
  cases sc <;> cases hv : s.cache.viewChanged <;>
    by_cases hb : st.blendMode = s.cache.lastBlendMode <;>
    by_cases ht : texIdOf st.texture = s.cache.lastTextureId <;>
    cases hsh : st.shader <;> cases hds : s.defaultShader <;>
    simp [hv, hb, ht, hsh, hds]

@[simp] lemma applyStatesBlock_fst_lastNonLegacyShader (sc : Bool) (st : RenderStates) (s : RenderTarget) :
    (applyStatesBlock sc st s).1.lastNonLegacyShader = s.lastNonLegacyShader := by
  unfold applyStatesBlock
  cases sc <;> cases hv : s.cache.viewChanged <;>
    by_cases hb : st.blendMode = s.cache.lastBlendMode <;>
    by_cases ht : texIdOf st.texture = s.cache.lastTextureId <;>
    cases hsh : st.shader <;> cases hds : s.defaultShader <;>
    simp [hv, hb, ht, hsh, hds]

@[simp] lemma applyStatesBlock_fst_deviceTransform (sc : Bool) (st : RenderStates) (s : RenderTarget) :
    (applyStatesBlock sc st s).1.deviceTransform = s.deviceTransform := by
  unfold applyStatesBlock
  cases sc <;> cases hv : s.cache.viewChanged <;>
    by_cases hb : st.blendMode = s.cache.lastBlendMode <;>
    by_cases ht : texIdOf st.texture = s.cache.lastTextureId <;>
    cases hsh : st.shader <;> cases hds : s.defaultShader <;>
    simp [hv, hb, ht, hsh, hds]

lemma applyStatesBlock_snd (sc : Bool) (st : RenderStates) (s : RenderTarget) :
    (applyStatesBlock sc st s).2 =
      (if sc || s.cache.viewChanged then [GLCall.applyCurrentViewCall] else [])
      ++ (if st.blendMode ≠ s.cache.lastBlendMode then [GLCall.applyBlendModeCall st.blendMode]
          else [])
      ++ (if sc || texIdOf st.texture ≠ s.cache.lastTextureId then
            [GLCall.applyTextureCall st.texture]
          else [])
      ++ (match st.shader, s.defaultShader with
          | some sh, _ => [GLCall.applyShaderCall (some sh)]
          | none, some d => [GLCall.applyShaderCall (some d)]
          | none, none => []) := by
  unfold applyStatesBlock
  cases sc <;> cases hv : s.cache.viewChanged <;>
    by_cases hb : st.blendMode = s.cache.lastBlendMode <;>
    by_cases ht : texIdOf st.texture = s.cache.lastTextureId <;>
    cases hsh : st.shader <;> cases hds : s.defaultShader <;>
    simp [hv, hb, ht, hsh, hds]

@[simp] lemma unbindStep_fst_lastVertexBufferId (s : RenderTarget) :
    (unbindVertexBufferStep s).1.cache.lastVertexBufferId = 0 := by
  unfold unbindVertexBufferStep
  by_cases h : s.cache.lastVertexBufferId = 0 <;> simp [h]

@[simp] lemma unbindStep_fst_glStatesSet (s : RenderTarget) :
    (unbindVertexBufferStep s).1.cache.glStatesSet = s.cache.glStatesSet := by
  unfold unbindVertexBufferStep
  by_cases h : s.cache.lastVertexBufferId = 0 <;> simp [h]

@[simp] lemma unbindStep_fst_lastBlendMode (s : RenderTarget) :
    (unbindVertexBufferStep s).1.cache.lastBlendMode = s.cache.lastBlendMode := by
  unfold unbindVertexBufferStep
  by_cases h : s.cache.lastVertexBufferId = 0 <;> simp [h]

@[simp] lemma unbindStep_fst_lastTextureId (s : RenderTarget) :
    (unbindVertexBufferStep s).1.cache.lastTextureId = s.cache.lastTextureId := by
  unfold unbindVertexBufferStep
  by_cases h : s.cache.lastVertexBufferId = 0 <;> simp [h]

@[simp] lemma unbindStep_fst_viewChanged (s : RenderTarget) :
    (unbindVertexBufferStep s).1.cache.viewChanged = s.cache.viewChanged := by
  unfold unbindVertexBufferStep
  by_cases h : s.cache.lastVertexBufferId = 0 <;> simp [h]

@[simp] lemma unbindStep_fst_useVertexCache (s : RenderTarget) :
    (unbindVertexBufferStep s).1.cache.useVertexCache = s.cache.useVertexCache := by
  unfold unbindVertexBufferStep
  by_cases h : s.cache.lastVertexBufferId = 0 <;> simp [h]

@[simp] lemma unbindStep_fst_vertexCache (s : RenderTarget) :
    (unbindVertexBufferStep s).1.cache.vertexCache = s.cache.vertexCache := by
  unfold unbindVertexBufferStep
  by_cases h : s.cache.lastVertexBufferId = 0 <;> simp [h]

@[simp] lemma unbindStep_fst_defaultShader (s : RenderTarget) :
    (unbindVertexBufferStep s).1.defaultShader = s.defaultShader := by
  unfold unbindVertexBufferStep
  by_cases h : s.cache.lastVertexBufferId = 0 <;> simp [h]

@[simp] lemma unbindStep_fst_currentNonLegacyShader (s : RenderTarget) :
    (unbindVertexBufferStep s).1.currentNonLegacyShader = s.currentNonLegacyShader := by
  unfold unbindVertexBufferStep
  by_cases h : s.cache.lastVertexBufferId = 0 <;> simp [h]

@[simp] lemma unbindStep_fst_lastNonLegacyShader (s : RenderTarget) :
    (unbindVertexBufferStep s).1.lastNonLegacyShader = s.lastNonLegacyShader := by
  unfold unbindVertexBufferStep
  by_cases h : s.cache.lastVertexBufferId = 0 <;> simp [h]

@[simp] lemma unbindStep_fst_deviceTransform (s : RenderTarget) :
    (unbindVertexBufferStep s).1.deviceTransform = s.deviceTransform := by
  unfold unbindVertexBufferStep
  by_cases h : s.cache.lastVertexBufferId = 0 <;> simp [h]

@[simp] lemma unbindStep_fst_boundShader (s : RenderTarget) :
    (unbindVertexBufferStep s).1.boundShader = s.boundShader := by
  unfold unbindVertexBufferStep
  by_cases h : s.cache.lastVertexBufferId = 0 <;> simp [h]

@[simp] lemma unbindStep_snd (s : RenderTarget) :
    (unbindVertexBufferStep s).2 =
      (if s.cache.lastVertexBufferId ≠ 0 then [GLCall.applyVertexBufferCall none] else []) := by
  unfold unbindVertexBufferStep
  by_cases h : s.cache.lastVertexBufferId = 0 <;> simp [h]

@[simp] lemma bindStep_fst_lastVertexBufferId (b : VertexBuffer) (s : RenderTarget) :
    (bindVertexBufferStep b s).1.cache.lastVertexBufferId = b.cacheId := by
  unfold bindVertexBufferStep
  by_cases h : b.cacheId = s.cache.lastVertexBufferId <;> simp [h]

@[simp] lemma bindStep_fst_glStatesSet (b : VertexBuffer) (s : RenderTarget) :
    (bindVertexBufferStep b s).1.cache.glStatesSet = s.cache.glStatesSet := by
  unfold bindVertexBufferStep
  by_cases h : b.cacheId = s.cache.lastVertexBufferId <;> simp [h]

@[simp] lemma bindStep_fst_lastBlendMode (b : VertexBuffer) (s : RenderTarget) :
    (bindVertexBufferStep b s).1.cache.lastBlendMode = s.cache.lastBlendMode := by
  unfold bindVertexBufferStep
  by_cases h : b.cacheId = s.cache.lastVertexBufferId <;> simp [h]

@[simp] lemma bindStep_fst_lastTextureId (b : VertexBuffer) (s : RenderTarget) :
    (bindVertexBufferStep b s).1.cache.lastTextureId = s.cache.lastTextureId := by
  unfold bindVertexBufferStep
  by_cases h : b.cacheId = s.cache.lastVertexBufferId <;> simp [h]

@[simp] lemma bindStep_fst_viewChanged (b : VertexBuffer) (s : RenderTarget) :
    (bindVertexBufferStep b s).1.cache.viewChanged = s.cache.viewChanged := by
  unfold bindVertexBufferStep
  by_cases h : b.cacheId = s.cache.lastVertexBufferId <;> simp [h]

@[simp] lemma bindStep_fst_useVertexCache (b : VertexBuffer) (s : RenderTarget) :
    (bindVertexBufferStep b s).1.cache.useVertexCache = s.cache.useVertexCache := by
  unfold bindVertexBufferStep
  by_cases h : b.cacheId = s.cache.lastVertexBufferId <;> simp [h]

@[simp] lemma bindStep_fst_vertexCache (b : VertexBuffer) (s : RenderTarget) :
    (bindVertexBufferStep b s).1.cache.vertexCache = s.cache.vertexCache := by
  unfold bindVertexBufferStep
  by_cases h : b.cacheId = s.cache.lastVertexBufferId <;> simp [h]

@[simp] lemma bindStep_fst_defaultShader (b : VertexBuffer) (s : RenderTarget) :
    (bindVertexBufferStep b s).1.defaultShader = s.defaultShader := by
  unfold bindVertexBufferStep
  by_cases h : b.cacheId = s.cache.lastVertexBufferId <;> simp [h]

@[simp] lemma bindStep_fst_currentNonLegacyShader (b : VertexBuffer) (s : RenderTarget) :
    (bindVertexBufferStep b s).1.currentNonLegacyShader = s.currentNonLegacyShader := by
  unfold bindVertexBufferStep
  by_cases h : b.cacheId = s.cache.lastVertexBufferId <;> simp [h]

@[simp] lemma bindStep_fst_lastNonLegacyShader (b : VertexBuffer) (s : RenderTarget) :
    (bindVertexBufferStep b s).1.lastNonLegacyShader = s.lastNonLegacyShader := by
  unfold bindVertexBufferStep
  by_cases h : b.cacheId = s.cache.lastVertexBufferId <;> simp [h]

@[simp] lemma bindStep_fst_deviceTransform (b : VertexBuffer) (s : RenderTarget) :
    (bindVertexBufferStep b s).1.deviceTransform = s.deviceTransform := by
  unfold bindVertexBufferStep
  by_cases h : b.cacheId = s.cache.lastVertexBufferId <;> simp [h]

@[simp] lemma bindStep_fst_boundShader (b : VertexBuffer) (s : RenderTarget) :
    (bindVertexBufferStep b s).1.boundShader = s.boundShader := by
  unfold bindVertexBufferStep
  by_cases h : b.cacheId = s.cache.lastVertexBufferId <;> simp [h]

@[simp] lemma bindStep_snd (b : VertexBuffer) (s : RenderTarget) :
    (bindVertexBufferStep b s).2 =
      (if b.cacheId ≠ s.cache.lastVertexBufferId then [GLCall.applyVertexBufferCall (some b)]
       else []) := by
  unfold bindVertexBufferStep
  by_cases h : b.cacheId = s.cache.lastVertexBufferId <;> simp [h]

@[simp] lemma legacyUnbind_fst_cache (hov : Bool) (s : RenderTarget) :
    (legacyUnbindStep hov s).1.cache = s.cache := by
  unfold legacyUnbindStep
  (repeat' split) <;> simp

@[simp] lemma legacyUnbind_fst_defaultShader (hov : Bool) (s : RenderTarget) :
    (legacyUnbindStep hov s).1.defaultShader = s.defaultShader := by
  unfold legacyUnbindStep
  (repeat' split) <;> simp

@[simp] lemma legacyUnbind_fst_currentNonLegacyShader (hov : Bool) (s : RenderTarget) :
    (legacyUnbindStep hov s).1.currentNonLegacyShader = s.currentNonLegacyShader := by
  unfold legacyUnbindStep
  (repeat' split) <;> simp

@[simp] lemma legacyUnbind_fst_lastNonLegacyShader (hov : Bool) (s : RenderTarget) :
    (legacyUnbindStep hov s).1.lastNonLegacyShader = s.lastNonLegacyShader := by
  unfold legacyUnbindStep
  (repeat' split) <;> simp

@[simp] lemma legacyUnbind_fst_deviceTransform (hov : Bool) (s : RenderTarget) :
    (legacyUnbindStep hov s).1.deviceTransform = s.deviceTransform := by
  unfold legacyUnbindStep
  (repeat' split) <;> simp

@[simp] lemma legacyUnbind_fst_boundShader (hov : Bool) (s : RenderTarget) :
    (legacyUnbindStep hov s).1.boundShader =
      (if hov && s.defaultShader.isNone then none else s.boundShader) := by
  unfold legacyUnbindStep
  (repeat' split) <;> simp_all

@[simp] lemma legacyUnbind_snd (hov : Bool) (s : RenderTarget) :
    (legacyUnbindStep hov s).2 =
      (if hov && s.defaultShader.isNone then [GLCall.applyShaderCall none] else []) := by
  unfold legacyUnbindStep
  (repeat' split) <;> simp_all

@[simp] lemma finishDraw_cache (s : RenderTarget) :
    (finishDraw s).cache = s.cache := by
  unfold finishDraw
  (repeat' split) <;> simp

@[simp] lemma finishDraw_defaultShader (s : RenderTarget) :
    (finishDraw s).defaultShader = s.defaultShader := by
  unfold finishDraw
  (repeat' split) <;> simp

@[simp] lemma finishDraw_deviceTransform (s : RenderTarget) :
    (finishDraw s).deviceTransform = s.deviceTransform := by
  unfold finishDraw
  (repeat' split) <;> simp

@[simp] lemma finishDraw_boundShader (s : RenderTarget) :
    (finishDraw s).boundShader = s.boundShader := by
  unfold finishDraw
  (repeat' split) <;> simp

@[simp] lemma finishDraw_lastNonLegacyShader (s : RenderTarget) :
    (finishDraw s).lastNonLegacyShader =
      (if s.defaultShader.isSome then s.currentNonLegacyShader else s.lastNonLegacyShader) := by
  unfold finishDraw
  (repeat' split) <;> simp_all


@[simp] lemma resolve_fst_currentNonLegacyShader (st : RenderStates) (s : RenderTarget) :
    (resolveShaderChange st s).1.currentNonLegacyShader =
      (match s.defaultShader with
       | none => s.currentNonLegacyShader
       | some d => some (st.shader.getD d)) := by
  unfold resolveShaderChange
  cases hds : s.defaultShader <;> cases hsh : st.shader <;> simp [hds, hsh]

@[simp] lemma resolve_snd (st : RenderStates) (s : RenderTarget) :
    (resolveShaderChange st s).2 =
      (match s.defaultShader with
       | none => false
       | some d => decide (some (st.shader.getD d) ≠ s.lastNonLegacyShader)) := by
  unfold resolveShaderChange
  cases hds : s.defaultShader <;> cases hsh : st.shader <;> simp [hds, hsh]

lemma drawVertices_post (env : Env) (s : RenderTarget) (verts : List Vertex) (n : Nat)
    (pt : PrimitiveType) (st : RenderStates) (hn : n ≠ 0) :
    let out := drawVertices env true s (some verts) n pt st
    out.1.cache.glStatesSet = true ∧
    out.1.cache.viewChanged = false ∧
    out.1.cache.lastBlendMode = st.blendMode ∧
    out.1.cache.lastTextureId = texIdOf st.texture ∧
    out.1.cache.lastVertexBufferId = 0 ∧
    out.1.defaultShader = s.defaultShader := by
  simp [drawVertices, hn]

lemma drawVertexBufferOp_post (env : Env) (s : RenderTarget) (b : VertexBuffer)
    (st : RenderStates) (hb : b.vertexCount ≠ 0) :
    let out := drawVertexBufferOp env true s b st
    out.1.cache.glStatesSet = true ∧
    out.1.cache.viewChanged = false ∧
    out.1.cache.lastBlendMode = st.blendMode ∧
    out.1.cache.lastTextureId = texIdOf st.texture ∧
    out.1.cache.lastVertexBufferId = b.cacheId ∧
    out.1.defaultShader = s.defaultShader := by
  simp [drawVertexBufferOp, hb]


@[simp] lemma filter_ite {α : Type} {c : Prop} [Decidable c] (p : α → Bool) (a b : List α) :
    List.filter p (if c then a else b) = if c then List.filter p a else List.filter p b := by
  split <;> rfl

@[simp] lemma mem_ite_list {α : Type} {c : Prop} [Decidable c] (x : α) (a b : List α) :
    (x ∈ (if c then a else b)) ↔ (if c then x ∈ a else x ∈ b) := by
  split <;> rfl

@[simp] lemma arrayEmit_filter_cached (env : Env) (u : Bool) (verts : List Vertex)
    (pt : PrimitiveType) (n : Nat) (s : RenderTarget) :
    (arrayEmit env u verts pt n s).filter GLCall.isCachedApplier = [] := by
  unfold arrayEmit drawNonLegacy
  cases hds : s.defaultShader <;> cases u <;> cases hv : s.cache.useVertexCache <;>
    simp [hds, hv, GLCall.isCachedApplier]

@[simp] lemma arrayEmit_filter_shader (env : Env) (u : Bool) (verts : List Vertex)
    (pt : PrimitiveType) (n : Nat) (s : RenderTarget) :
    (arrayEmit env u verts pt n s).filter GLCall.isApplyShader = [] := by
  unfold arrayEmit drawNonLegacy
  cases hds : s.defaultShader <;> cases u <;> cases hv : s.cache.useVertexCache <;>
    simp [hds, hv, GLCall.isApplyShader]

@[simp] lemma bufferEmit_filter_cached (env : Env) (b : VertexBuffer) (s : RenderTarget) :
    (bufferEmit env b s).filter GLCall.isCachedApplier = [] := by
  unfold bufferEmit drawNonLegacy
  cases hds : s.defaultShader <;> simp [hds, GLCall.isCachedApplier]

@[simp] lemma bufferEmit_filter_shader (env : Env) (b : VertexBuffer) (s : RenderTarget) :
    (bufferEmit env b s).filter GLCall.isApplyShader = [] := by
  unfold bufferEmit drawNonLegacy
  cases hds : s.defaultShader <;> simp [hds, GLCall.isApplyShader]

lemma drawVertices_textureApplierRuns (env : Env) (s : RenderTarget) (verts : List Vertex)
    (n : Nat) (pt : PrimitiveType) (st : RenderStates) (hn : n ≠ 0)
    (hGl : s.cache.glStatesSet = true)
    (ht : texIdOf st.texture ≠ s.cache.lastTextureId) :
    GLCall.applyTextureCall st.texture ∈ (drawVertices env true s (some verts) n pt st).2 := by
  simp [drawVertices, hn, maybeReset_of_glStatesSet _ _ hGl, applyStatesBlock_snd,
    List.mem_append, ht]

lemma drawVertexBufferOp_textureApplierRuns (env : Env) (s : RenderTarget) (b : VertexBuffer)
    (st : RenderStates) (hb : b.vertexCount ≠ 0)
    (hGl : s.cache.glStatesSet = true)
    (ht : texIdOf st.texture ≠ s.cache.lastTextureId) :
    GLCall.applyTextureCall st.texture ∈ (drawVertexBufferOp env true s b st).2 := by
  simp [drawVertexBufferOp, hb, maybeReset_of_glStatesSet _ _ hGl, applyStatesBlock_snd,
    List.mem_append, ht]

lemma drawVertices_steady_filter (env : Env) (s : RenderTarget) (verts : List Vertex)
    (n : Nat) (pt : PrimitiveType) (st : RenderStates) (hn : n ≠ 0)
    (hGl : s.cache.glStatesSet = true)
    (hb : st.blendMode = s.cache.lastBlendMode)
    (hsh : ∀ d, s.defaultShader = some d → s.lastNonLegacyShader = some (st.shader.getD d))
    (hbuf : s.cache.lastVertexBufferId = 0) :
    ((drawVertices env true s (some verts) n pt st).2.filter GLCall.isCachedApplier)
      = (if texIdOf st.texture = s.cache.lastTextureId then []
         else [GLCall.applyTextureCall st.texture]) := by
  cases hds : s.defaultShader with
  | none =>
    cases hshopt : st.shader <;>
      by_cases htex : texIdOf st.texture = s.cache.lastTextureId <;>
      simp [drawVertices, hn, maybeReset_of_glStatesSet _ _ hGl, applyStatesBlock_snd,
        hds, hb, hbuf, htex, hshopt, GLCall.isCachedApplier]
  | some d =>
    have hlast := hsh d hds
    cases hshopt : st.shader <;>
      by_cases htex : texIdOf st.texture = s.cache.lastTextureId <;>
      simp [drawVertices, hn, maybeReset_of_glStatesSet _ _ hGl, applyStatesBlock_snd,
        hds, hb, hbuf, htex, hlast, hshopt, GLCall.isCachedApplier]

lemma drawVertexBufferOp_steady_filter (env : Env) (s : RenderTarget) (b : VertexBuffer)
    (st : RenderStates) (hn : b.vertexCount ≠ 0)
    (hGl : s.cache.glStatesSet = true)
    (hb : st.blendMode = s.cache.lastBlendMode)
    (hsh : ∀ d, s.defaultShader = some d → s.lastNonLegacyShader = some (st.shader.getD d))
    (hbuf : s.cache.lastVertexBufferId = b.cacheId) :
    ((drawVertexBufferOp env true s b st).2.filter GLCall.isCachedApplier)
      = (if texIdOf st.texture = s.cache.lastTextureId then []
         else [GLCall.applyTextureCall st.texture]) := by
  cases hds : s.defaultShader with
  | none =>
    cases hshopt : st.shader <;>
      by_cases htex : texIdOf st.texture = s.cache.lastTextureId <;>
      simp [drawVertexBufferOp, hn, maybeReset_of_glStatesSet _ _ hGl, applyStatesBlock_snd,
        hds, hb, hbuf.symm, htex, hshopt, GLCall.isCachedApplier]
  | some d =>
    have hlast := hsh d hds
    cases hshopt : st.shader <;>
      by_cases htex : texIdOf st.texture = s.cache.lastTextureId <;>
      simp [drawVertexBufferOp, hn, maybeReset_of_glStatesSet _ _ hGl, applyStatesBlock_snd,
        hds, hb, hbuf.symm, htex, hlast, hshopt, GLCall.isCachedApplier]


lemma drawVertices_fst_defaultShader (env : Env) (act : Bool) (s : RenderTarget)
    (v : Option (List Vertex)) (n : Nat) (pt : PrimitiveType) (st : RenderStates) :
    (drawVertices env act s v n pt st).1.defaultShader = s.defaultShader := by
  cases v with
  | none => rfl
  | some verts =>
    by_cases hn : n = 0
    · simp [drawVertices, hn]
    · cases act <;> simp [drawVertices, hn]

lemma drawVertexBufferOp_fst_defaultShader (env : Env) (act : Bool) (s : RenderTarget)
    (b : VertexBuffer) (st : RenderStates) :
    (drawVertexBufferOp env act s b st).1.defaultShader = s.defaultShader := by
  by_cases hn : b.vertexCount = 0
  · simp [drawVertexBufferOp, hn]
  · cases act <;> simp [drawVertexBufferOp, hn]

lemma drawCmd_fst_defaultShader (env : Env) (act : Bool) (s : RenderTarget) (cmd : DrawCmd) :
    (drawCmd env act s cmd).1.defaultShader = s.defaultShader := by
  cases cmd with
  | array v n pt st => exact drawVertices_fst_defaultShader env act s v n pt st
  | buffer b st => exact drawVertexBufferOp_fst_defaultShader env act s b st

lemma resetGLStates_fst_defaultShader (env : Env) (act : Bool) (s : RenderTarget) :
    (resetGLStates env act s).1.defaultShader = s.defaultShader := by
  unfold resetGLStates
  cases hds : s.defaultShader <;> (repeat' split) <;> simp_all [setView]

lemma drawVertices_post_lastNonLegacy (env : Env) (s : RenderTarget) (verts : List Vertex)
    (n : Nat) (pt : PrimitiveType) (st : RenderStates) (hn : n ≠ 0) (d : Shader)
    (hd : s.defaultShader = some d) :
    (drawVertices env true s (some verts) n pt st).1.lastNonLegacyShader
      = some (st.shader.getD d) := by
  simp [drawVertices, hn, hd]

lemma drawVertexBufferOp_post_lastNonLegacy (env : Env) (s : RenderTarget) (b : VertexBuffer)
    (st : RenderStates) (hb : b.vertexCount ≠ 0) (d : Shader)
    (hd : s.defaultShader = some d) :
    (drawVertexBufferOp env true s b st).1.lastNonLegacyShader
      = some (st.shader.getD d) := by
  simp [drawVertexBufferOp, hb, hd]

lemma cmdExecutes_array_count {v : Option (List Vertex)} {n : Nat} {pt : PrimitiveType}
    {st : RenderStates} (h : cmdExecutes (DrawCmd.array v n pt st) = true) : n ≠ 0 := by
  simp [cmdExecutes] at h
  omega

lemma cmdExecutes_buffer_count {b : VertexBuffer} {st : RenderStates}
    (h : cmdExecutes (DrawCmd.buffer b st) = true) : b.vertexCount ≠ 0 := by
  simp [cmdExecutes] at h
  omega

lemma cmdExecutes_array_some {v : Option (List Vertex)} {n : Nat} {pt : PrimitiveType}
    {st : RenderStates} (h : cmdExecutes (DrawCmd.array v n pt st) = true) :
    ∃ verts, v = some verts := by
  cases v with
  | none => simp [cmdExecutes] at h
  | some verts => exact ⟨verts, rfl⟩

lemma drawCmd_post (env : Env) (s : RenderTarget) (cmd : DrawCmd)
    (h : cmdExecutes cmd = true) :
    (drawCmd env true s cmd).1.cache.glStatesSet = true ∧
    (drawCmd env true s cmd).1.cache.viewChanged = false ∧
    (drawCmd env true s cmd).1.cache.lastBlendMode = (cmdStates cmd).blendMode ∧
    (drawCmd env true s cmd).1.cache.lastTextureId = texIdOf (cmdStates cmd).texture ∧
    (drawCmd env true s cmd).1.cache.lastVertexBufferId = cmdBufId cmd ∧
    (drawCmd env true s cmd).1.defaultShader = s.defaultShader := by
  cases cmd with
  | array v n pt st =>
    obtain ⟨verts, rfl⟩ := cmdExecutes_array_some h
    exact drawVertices_post env s verts n pt st (cmdExecutes_array_count h)
  | buffer b st =>
    exact drawVertexBufferOp_post env s b st (cmdExecutes_buffer_count h)

lemma drawCmd_post_lastNonLegacy (env : Env) (s : RenderTarget) (cmd : DrawCmd)
    (h : cmdExecutes cmd = true) (d : Shader) (hd : s.defaultShader = some d) :
    (drawCmd env true s cmd).1.lastNonLegacyShader
      = some ((cmdStates cmd).shader.getD d) := by
  cases cmd with
  | array v n pt st =>
    obtain ⟨verts, rfl⟩ := cmdExecutes_array_some h
    exact drawVertices_post_lastNonLegacy env s verts n pt st (cmdExecutes_array_count h) d hd
  | buffer b st =>
    exact drawVertexBufferOp_post_lastNonLegacy env s b st (cmdExecutes_buffer_count h) d hd

lemma drawCmd_textureApplierRuns (env : Env) (s : RenderTarget) (cmd : DrawCmd)
    (h : cmdExecutes cmd = true) (hGl : s.cache.glStatesSet = true)
    (ht : texIdOf (cmdStates cmd).texture ≠ s.cache.lastTextureId) :
    GLCall.applyTextureCall (cmdStates cmd).texture ∈ (drawCmd env true s cmd).2 := by
  cases cmd with
  | array v n pt st =>
    obtain ⟨verts, rfl⟩ := cmdExecutes_array_some h
    exact drawVertices_textureApplierRuns env s verts n pt st (cmdExecutes_array_count h) hGl ht
  | buffer b st =>
    exact drawVertexBufferOp_textureApplierRuns env s b st (cmdExecutes_buffer_count h) hGl ht

lemma drawCmd_steady_filter (env : Env) (s : RenderTarget) (cmd : DrawCmd)
    (h : cmdExecutes cmd = true) (hGl : s.cache.glStatesSet = true)
    (hb : (cmdStates cmd).blendMode = s.cache.lastBlendMode)
    (hsh : ∀ d, s.defaultShader = some d →
             s.lastNonLegacyShader = some ((cmdStates cmd).shader.getD d))
    (hbuf : s.cache.lastVertexBufferId = cmdBufId cmd) :
    ((drawCmd env true s cmd).2.filter GLCall.isCachedApplier)
      = (if texIdOf (cmdStates cmd).texture = s.cache.lastTextureId then []
         else [GLCall.applyTextureCall (cmdStates cmd).texture]) := by
  cases cmd with
  | array v n pt st =>
    obtain ⟨verts, rfl⟩ := cmdExecutes_array_some h
    exact drawVertices_steady_filter env s verts n pt st (cmdExecutes_array_count h)
      hGl hb hsh hbuf
  | buffer b st =>
    exact drawVertexBufferOp_steady_filter env s b st (cmdExecutes_buffer_count h)
      hGl hb hsh hbuf

/-- Claim C1: cache comparisons for textures use only the caller-assigned
64-bit cache identity, never the memory address: for every pair of
consecutive executed draws (either overload) whose second submission
carries a texture whose cache identity differs from the cached last-applied
identity, the texture applier runs again on the second draw, even when the
two texture objects occupy the same address; and the cache records the
identity, not the address. -/
theorem claim1_texture_identity (env : Env) (s : RenderTarget) (cmd1 cmd2 : DrawCmd)
    (t1 t2 : Texture)
    (h1 : cmdExecutes cmd1 = true) (h2 : cmdExecutes cmd2 = true)
    (ht1 : (cmdStates cmd1).texture = some t1) (ht2 : (cmdStates cmd2).texture = some t2)
    (haddr : t1.addr = t2.addr)
    (hid : t2.cacheId ≠ (drawCmd env true s cmd1).1.cache.lastTextureId) :
    GLCall.applyTextureCall (some t2) ∈ (drawCmd env true (drawCmd env true s cmd1).1 cmd2).2
    ∧ (drawCmd env true (drawCmd env true s cmd1).1 cmd2).1.cache.lastTextureId = t2.cacheId := by
  obtain ⟨hgl, -, -, -, -, -⟩ := drawCmd_post env s cmd1 h1
  have htex : texIdOf (cmdStates cmd2).texture
      ≠ (drawCmd env true s cmd1).1.cache.lastTextureId := by
    rw [ht2]
    exact hid
  constructor
  · have := drawCmd_textureApplierRuns env (drawCmd env true s cmd1).1 cmd2 h2 hgl htex
    rwa [ht2] at this
  · obtain ⟨-, -, -, htex2, -, -⟩ := drawCmd_post env (drawCmd env true s cmd1).1 cmd2 h2
    rw [htex2, ht2]
    rfl

/-- Witness for claim C1: texture identity 2 at the reused address 100 is
re-applied on the second draw. -/
theorem claim1_texture_identity_witness :
    GLCall.applyTextureCall (some ⟨100, 2⟩)
      ∈ (drawCmd wEnv true (drawCmd wEnv true wTarget c1cmdA).1 c1cmdB).2
    ∧ (drawCmd wEnv true (drawCmd wEnv true wTarget c1cmdA).1 c1cmdB).1.cache.lastTextureId
        = 2 :=
  claim1_texture_identity wEnv wTarget c1cmdA c1cmdB ⟨100, 1⟩ ⟨100, 2⟩
    (by decide) (by decide) rfl rfl rfl (by decide)

/-- Claim C2: for two consecutive executed draws with identical blend mode,
identical texture cache identity, identical vertex-buffer identity and the
same per-draw shader (hence the same resolved shader), the second draw
re-invokes none of the blend-mode, texture or vertex-buffer appliers; and
when only the texture identity changes, the only cached applier re-invoked
on the second draw is the texture applier. -/
theorem claim2_delta_suppression (env : Env) (s : RenderTarget) (cmd1 cmd2 : DrawCmd)
    (h1 : cmdExecutes cmd1 = true) (h2 : cmdExecutes cmd2 = true)
    (hb : (cmdStates cmd2).blendMode = (cmdStates cmd1).blendMode)
    (hsh : (cmdStates cmd2).shader = (cmdStates cmd1).shader)
    (hbuf : cmdBufId cmd2 = cmdBufId cmd1) :
    (texIdOf (cmdStates cmd2).texture = texIdOf (cmdStates cmd1).texture →
       ((drawCmd env true (drawCmd env true s cmd1).1 cmd2).2.filter GLCall.isCachedApplier)
         = [])
    ∧ (texIdOf (cmdStates cmd2).texture ≠ texIdOf (cmdStates cmd1).texture →
       ((drawCmd env true (drawCmd env true s cmd1).1 cmd2).2.filter GLCall.isCachedApplier)
         = [GLCall.applyTextureCall ((cmdStates cmd2).texture)]) := by
  obtain ⟨hgl, -, hblend, htex, hbufid, hds⟩ := drawCmd_post env s cmd1 h1
  have hfilter := drawCmd_steady_filter env (drawCmd env true s cmd1).1 cmd2 h2 hgl
    (by rw [hblend, hb])
    (by
      intro d hd
      rw [hds] at hd
      rw [drawCmd_post_lastNonLegacy env s cmd1 h1 d hd, hsh])
    (by rw [hbufid, hbuf])
  constructor
  · intro heq
    rw [hfilter, if_pos (by rw [htex, heq])]
  · intro hne
    rw [hfilter, if_neg (by rw [htex]; exact hne)]

/-- Witness for claim C2: both the full-suppression case (identical
submissions) and the texture-only case (texture identity 7 differs from the
cached 1). -/
theorem claim2_delta_suppression_witness :
    ((texIdOf (cmdStates c1cmdA).texture = texIdOf (cmdStates c1cmdA).texture →
       ((drawCmd wEnv true (drawCmd wEnv true wTarget c1cmdA).1 c1cmdA).2.filter
          GLCall.isCachedApplier) = [])
     ∧ (texIdOf (cmdStates c1cmdA).texture ≠ texIdOf (cmdStates c1cmdA).texture →
       ((drawCmd wEnv true (drawCmd wEnv true wTarget c1cmdA).1 c1cmdA).2.filter
          GLCall.isCachedApplier) = [GLCall.applyTextureCall ((cmdStates c1cmdA).texture)]))
    ∧ ((texIdOf (cmdStates c2cmdC).texture = texIdOf (cmdStates c1cmdA).texture →
       ((drawCmd wEnv true (drawCmd wEnv true wTarget c1cmdA).1 c2cmdC).2.filter
          GLCall.isCachedApplier) = [])
     ∧ (texIdOf (cmdStates c2cmdC).texture ≠ texIdOf (cmdStates c1cmdA).texture →
       ((drawCmd wEnv true (drawCmd wEnv true wTarget c1cmdA).1 c2cmdC).2.filter
          GLCall.isCachedApplier) = [GLCall.applyTextureCall ((cmdStates c2cmdC).texture)])) :=
  ⟨claim2_delta_suppression wEnv wTarget c1cmdA c1cmdA
      (by decide) (by decide) rfl rfl rfl,
   claim2_delta_suppression wEnv wTarget c1cmdA c2cmdC
      (by decide) (by decide) rfl rfl rfl⟩

/-- Claim C3: a draw submission that is empty (null vertex pointer, zero
vertex count, or a buffer reporting zero vertices) issues zero device calls
and leaves the target state, including the entire state cache, unchanged;
this holds whether or not activation succeeds. -/
theorem claim3_empty_submission_noop (env : Env) (act : Bool) (s : RenderTarget)
    (cmd : DrawCmd) (h : cmdExecutes cmd = false) :
    drawCmd env act s cmd = (s, []) := by
  cases cmd with
  | array v n pt st =>
    cases v with
    | none => rfl
    | some verts =>
      have hn : n = 0 := by
        simp [cmdExecutes] at h
        omega
      simp [drawCmd, drawVertices, hn]
  | buffer b st =>
    have hb : b.vertexCount = 0 := by
      simp [cmdExecutes] at h
      omega
    simp [drawCmd, drawVertexBufferOp, hb]

/-- Witness for claim C3: a null-pointer draw, a zero-count draw and a
zero-vertex buffer draw are all exact no-ops. -/
theorem claim3_empty_submission_noop_witness :
    drawCmd wEnv true wTarget (DrawCmd.array none 5 PrimitiveType.Triangles wStates)
      = (wTarget, [])
    ∧ drawCmd wEnv true wTarget (DrawCmd.array (some [wVertex]) 0 PrimitiveType.Triangles wStates)
      = (wTarget, [])
    ∧ drawCmd wEnv true wTarget (DrawCmd.buffer ⟨5, 3, 0, PrimitiveType.Points⟩ wStates)
      = (wTarget, []) :=
  ⟨claim3_empty_submission_noop wEnv true wTarget _ (by decide),
   claim3_empty_submission_noop wEnv true wTarget _ (by decide),
   claim3_empty_submission_noop wEnv true wTarget _ (by decide)⟩


lemma preTransformInto_take (t : Transform) (verts old : List Vertex) (n : Nat)
    (h : n ≤ verts.length) :
    (preTransformInto t verts n old).take n
      = (verts.take n).map (fun v => {v with position := t.transformPoint3 v.position}) := by
  unfold preTransformInto
  have hlen : ((verts.take n).map
      (fun v => {v with position := t.transformPoint3 v.position})).length = n := by
    simp [Nat.min_eq_left h]
  rw [List.take_left' hlen]

/-- Characterization of the pre-transform path of the array overload under
the intended invariant that a set cache flag comes with an identity device
transform: the path is taken iff the legacy pipeline is active, the vertex
count is at most the cache capacity and the caller permits it; when taken,
positions are pre-multiplied into the scratch cache and the submission
renders under the identity transform, otherwise the submission transform
is applied directly; never taken under the shader pipeline. The invariant
hypothesis is NOT maintained by the code across buffer draws (the flag
staleness documented with claim C8), which is what refutes claim C4. -/
theorem pretransform_path_under_invariant (env : Env) (s : RenderTarget) (verts : List Vertex)
    (n : Nat) (pt : PrimitiveType) (st : RenderStates)
    (hn : n ≠ 0) (hlen : n ≤ verts.length)
    (hInv : s.cache.useVertexCache = true → s.deviceTransform = Transform.identity) :
    (drawVertices env true s (some verts) n pt st).1.cache.useVertexCache
      = (s.defaultShader.isNone && decide (n ≤ VertexCacheSize) && st.useVertexCache)
    ∧ ((s.defaultShader.isNone && decide (n ≤ VertexCacheSize) && st.useVertexCache) = true →
        (drawVertices env true s (some verts) n pt st).1.cache.vertexCache.take n
          = (verts.take n).map
              (fun v => {v with position := st.transform.transformPoint3 v.position})
        ∧ (drawVertices env true s (some verts) n pt st).1.deviceTransform
            = Transform.identity)
    ∧ ((s.defaultShader.isNone && decide (n ≤ VertexCacheSize) && st.useVertexCache) = false →
        (drawVertices env true s (some verts) n pt st).1.deviceTransform = st.transform)
    ∧ (s.defaultShader.isSome = true →
        (drawVertices env true s (some verts) n pt st).1.cache.useVertexCache = false) := by
  refine ⟨?_, ?_, ?_, ?_⟩
  · simp [drawVertices, hn]
  · intro hvc
    constructor
    · simp [drawVertices, hn, hvc,
        preTransformInto_take st.transform verts s.cache.vertexCache n hlen]
    · cases hg : s.cache.glStatesSet <;> cases hv : s.cache.useVertexCache <;>
        simp [drawVertices, hn, hvc, hg, hv] <;>
        exact hInv hv
  · intro hvc
    simp [drawVertices, hn, hvc]
  · intro hds
    have hnone : s.defaultShader.isNone = false := by
      cases hdds : s.defaultShader <;> simp_all
    simp [drawVertices, hn, hnone]

/-- Claim C4, evaluated at the failing input produced by the flag staleness
of the buffer overload: after a small legacy pre-transform draw and then an
executed buffer draw submitted under a non-identity transform, the stale
cache flag makes the next small permitted array draw take the pre-transform
path while issuing no transform-applier call at all, so that submission
renders under the stale non-identity transform instead of the identity the
claim requires. -/
theorem claim4_stale_transform_on_pretransform_path :
    c4state2.cache.useVertexCache = true
    ∧ c4state2.deviceTransform = c4transform
    ∧ (drawVertices wEnv true c4state2 (some [wVertex]) 1 PrimitiveType.Triangles
        c8states).1.cache.useVertexCache = true
    ∧ ((drawVertices wEnv true c4state2 (some [wVertex]) 1 PrimitiveType.Triangles
        c8states).2.any GLCall.isDrawArrays = true)
    ∧ ((drawVertices wEnv true c4state2 (some [wVertex]) 1 PrimitiveType.Triangles
        c8states).2.filter GLCall.isApplyTransform = [])
    ∧ (drawVertices wEnv true c4state2 (some [wVertex]) 1 PrimitiveType.Triangles
        c8states).1.deviceTransform = c4transform
    ∧ c4transform ≠ Transform.identity := by
  decide


/-- Claim C5: at target initialization a default shader (the shader-based
pipeline) exists iff shader lighting is supported, the parsed supported
shading-language version is strictly greater than 1.29, and the generated
default program pair compiles; otherwise the default shader is none and
the target stays on the legacy pipeline; and no draw or state reset ever
changes the selected default shader afterwards. -/
theorem claim5_pipeline_selection :
    (∀ (hl : Bool) (v : ℚ) (c : Bool) (sh : Shader),
       (setupNonLegacyPipeline hl v c sh).isSome = (hl && decide ((1.29 : ℚ) < v) && c))
    ∧ (∀ (hl : Bool) (v : ℚ) (c : Bool) (sh : Shader) (s : RenderTarget),
       (initializeTarget hl v c sh s).defaultShader = setupNonLegacyPipeline hl v c sh)
    ∧ (∀ (env : Env) (act : Bool) (s : RenderTarget) (cmd : DrawCmd),
       (drawCmd env act s cmd).1.defaultShader = s.defaultShader)
    ∧ (∀ (env : Env) (act : Bool) (s : RenderTarget),
       (resetGLStates env act s).1.defaultShader = s.defaultShader) := by
  refine ⟨?_, ?_, ?_, ?_⟩
  · intro hl v c sh
    cases hl <;> cases c <;> by_cases hv : (1.29 : ℚ) < v <;>
      simp [setupNonLegacyPipeline, hv]
  · intro hl v c sh s
    rfl
  · exact drawCmd_fst_defaultShader
  · exact resetGLStates_fst_defaultShader

/-- Claim C6: getViewport returns the integer rect whose origin is the
truncation of 0.5 plus size times the normalized origin and whose extent is
the truncation of size times the normalized extent; in particular the full
viewport of an 800 by 600 surface maps to exactly (0, 0, 800, 600). -/
theorem claim6_viewport_formula :
    (∀ (w h : Nat) (vp : FloatRect),
       getViewport w h vp =
         ⟨truncInt ((0.5 : ℚ) + (w : ℚ) * vp.left),
          truncInt ((0.5 : ℚ) + (h : ℚ) * vp.top),
          truncInt ((w : ℚ) * vp.width),
          truncInt ((h : ℚ) * vp.height)⟩)
    ∧ getViewport 800 600 ⟨0, 0, 1, 1⟩ = ⟨0, 0, 800, 600⟩ := by
  refine ⟨fun w h vp => rfl, ?_⟩
  simp only [getViewport, truncInt]
  norm_num


lemma truncInt_intCast (n : ℤ) : truncInt (n : ℚ) = n := by
  unfold truncInt
  split
  · exact_mod_cast Int.floor_intCast n
  · rw [show (-(n : ℚ)) = ((-n : ℤ) : ℚ) by push_cast; ring, Int.floor_intCast]
    ring

lemma truncInt_eq_of_eq_intCast {q : ℚ} {n : ℤ} (h : q = (n : ℚ)) : truncInt q = n :=
  h ▸ truncInt_intCast n

lemma getViewport_800_600 : getViewport 800 600 ⟨0, 0, 1, 1⟩ = ⟨0, 0, 800, 600⟩ := by
  simp only [getViewport, truncInt]
  norm_num

/-- Claim C9: for the default view on an 800 by 600 surface, mapping a world
point to pixels and back recovers the point: exactly for integer-coordinate
points even through the truncating casts, and exactly for every rational
point under the ideal (non-truncating) variants of the two maps, which are
thus exact inverses. -/
theorem claim9_map_roundtrip :
    (∀ x y : ℤ,
       mapPixelToCoords 800 600 (defaultViewM 800 600)
           (mapCoordsToPixel 800 600 (defaultViewM 800 600) ⟨(x : ℚ), (y : ℚ), 0⟩)
         = ⟨(x : ℚ), (y : ℚ)⟩)
    ∧ (∀ p : Vec2,
       mapPixelToCoordsIdeal 800 600 (defaultViewM 800 600)
           (mapCoordsToPixelIdeal 800 600 (defaultViewM 800 600) ⟨p.x, p.y, 0⟩)
         = p) := by
  constructor
  · intro x y
    have h1 : mapCoordsToPixel 800 600 (defaultViewM 800 600) ⟨(x : ℚ), (y : ℚ), 0⟩
        = (x, y) := by
      simp only [mapCoordsToPixel, getViewport_800_600, defaultViewM, orthoTransform,
        Transform.identity, Transform.mul, Transform.transformPoint3, Prod.mk.injEq]
      constructor <;> apply truncInt_eq_of_eq_intCast <;> push_cast <;> ring
    rw [h1]
    simp only [mapPixelToCoords, getViewport_800_600, defaultViewM, orthoInverse,
      Transform.transformPoint2, Transform.transformPoint3, Vec2.mk.injEq]
    constructor <;> (push_cast; ring)
  · intro p
    simp only [mapPixelToCoordsIdeal, mapCoordsToPixelIdeal, getViewport_800_600,
      defaultViewM, orthoTransform, orthoInverse, Transform.identity, Transform.mul,
      Transform.transformPoint2, Transform.transformPoint3]
    cases p with
    | mk px py =>
      simp only [Vec2.mk.injEq]
      constructor <;> (push_cast; ring)


lemma takeWhile_append_of_all {α : Type} (p : α → Bool) {l₁ l₂ : List α}
    (h : ∀ a ∈ l₁, p a = true) :
    (l₁ ++ l₂).takeWhile p = l₁ ++ l₂.takeWhile p := by
  induction l₁ with
  | nil => simp
  | cons a l ih =>
    have ha : p a = true := h a (List.mem_cons_self a l)
    simp [List.takeWhile_cons, ha,
      ih (fun b hb => h b (List.mem_cons_of_mem a hb))]

lemma dropWhile_append_of_all {α : Type} (p : α → Bool) {l₁ l₂ : List α}
    (h : ∀ a ∈ l₁, p a = true) :
    (l₁ ++ l₂).dropWhile p = l₂.dropWhile p := by
  induction l₁ with
  | nil => simp
  | cons a l ih =>
    have ha : p a = true := h a (List.mem_cons_self a l)
    simp [List.dropWhile_cons, ha,
      ih (fun b hb => h b (List.mem_cons_of_mem a hb))]

lemma arrayTransform_nonDraw (u : Bool) (t : Transform) (verts : List Vertex) (n : Nat)
    (s : RenderTarget) :
    ∀ a ∈ (arrayTransformStep u t verts n s).2, (!a.isDrawArrays) = true := by
  cases u <;> cases hv : s.cache.useVertexCache <;>
    simp [hv, GLCall.isDrawArrays]

lemma applyTransform_nonDraw (t : Transform) (s : RenderTarget) :
    ∀ a ∈ (applyTransform t s).2, (!a.isDrawArrays) = true := by
  simp [GLCall.isDrawArrays]

lemma applyStatesBlock_nonDraw (sc : Bool) (st : RenderStates) (s : RenderTarget) :
    ∀ a ∈ (applyStatesBlock sc st s).2, (!a.isDrawArrays) = true := by
  rw [applyStatesBlock_snd]
  cases hsh : st.shader <;> cases hds : s.defaultShader <;>
    by_cases h1 : (sc || s.cache.viewChanged) = true <;>
    by_cases h2 : st.blendMode = s.cache.lastBlendMode <;>
    by_cases h3 : (sc || texIdOf st.texture ≠ s.cache.lastTextureId : Bool) = true <;>
    simp_all [GLCall.isDrawArrays]

lemma unbindStep_nonDraw (s : RenderTarget) :
    ∀ a ∈ (unbindVertexBufferStep s).2, (!a.isDrawArrays) = true := by
  by_cases h : s.cache.lastVertexBufferId = 0 <;> simp [h, GLCall.isDrawArrays]

lemma bindStep_nonDraw (b : VertexBuffer) (s : RenderTarget) :
    ∀ a ∈ (bindVertexBufferStep b s).2, (!a.isDrawArrays) = true := by
  by_cases h : b.cacheId = s.cache.lastVertexBufferId <;> simp [h, GLCall.isDrawArrays]

@[simp] lemma drawArrays_mem_arrayEmit (env : Env) (u : Bool) (verts : List Vertex)
    (pt : PrimitiveType) (n : Nat) (s : RenderTarget) :
    GLCall.drawArrays pt n ∈ arrayEmit env u verts pt n s := by
  unfold arrayEmit drawNonLegacy
  cases hds : s.defaultShader <;> cases u <;> cases hv : s.cache.useVertexCache <;>
    simp [hds, hv]

@[simp] lemma drawArrays_mem_bufferEmit (env : Env) (b : VertexBuffer) (s : RenderTarget) :
    GLCall.drawArrays b.primitiveType b.vertexCount ∈ bufferEmit env b s := by
  unfold bufferEmit drawNonLegacy
  cases hds : s.defaultShader <;> simp [hds]


lemma mem_takeWhile_append₃ {p : GLCall → Bool} {x : GLCall} {A B C D : List GLCall}
    (hA : ∀ a ∈ A, p a = true) (hB : ∀ a ∈ B, p a = true) (hC : ∀ a ∈ C, p a = true)
    (hx : x ∈ B) : x ∈ (A ++ (B ++ (C ++ D))).takeWhile p := by
  rw [takeWhile_append_of_all p hA, takeWhile_append_of_all p hB,
    takeWhile_append_of_all p hC]
  simp [hx]

lemma mem_dropWhile_append₃ {p : GLCall → Bool} {x : GLCall} {A B C D : List GLCall}
    (hA : ∀ a ∈ A, p a = true) (hB : ∀ a ∈ B, p a = true) (hC : ∀ a ∈ C, p a = true)
    (hx : x ∈ D.dropWhile p) : x ∈ (A ++ (B ++ (C ++ D))).dropWhile p := by
  rw [dropWhile_append_of_all p hA, dropWhile_append_of_all p hB,
    dropWhile_append_of_all p hC]
  exact hx

lemma applyShader_mem_ASB (sc : Bool) (st : RenderStates) (s : RenderTarget) (x : Shader)
    (hx : st.shader = some x ∨ (st.shader = none ∧ s.defaultShader = some x)) :
    GLCall.applyShaderCall (some x) ∈ (applyStatesBlock sc st s).2 := by
  rw [applyStatesBlock_snd]
  rcases hx with h | ⟨h1, h2⟩
  · simp [h]
  · simp [h1, h2]

lemma unbind_mem_dropWhile_arrayEmit (env : Env) (u : Bool) (verts : List Vertex)
    (pt : PrimitiveType) (n : Nat) (s : RenderTarget) (hleg : s.defaultShader = none) :
    GLCall.applyShaderCall none
      ∈ (arrayEmit env u verts pt n s ++ (legacyUnbindStep true s).2).dropWhile
          (fun c => !c.isDrawArrays) := by
  unfold arrayEmit legacyUnbindStep
  cases u <;> cases hv : s.cache.useVertexCache <;>
    simp [hleg, hv, List.dropWhile_cons, GLCall.isDrawArrays]

lemma unbind_mem_dropWhile_bufferEmit (env : Env) (b : VertexBuffer) (s : RenderTarget)
    (hleg : s.defaultShader = none) :
    GLCall.applyShaderCall none
      ∈ (bufferEmit env b s ++ (legacyUnbindStep true s).2).dropWhile
          (fun c => !c.isDrawArrays) := by
  unfold bufferEmit legacyUnbindStep
  simp [hleg, List.dropWhile_cons, GLCall.isDrawArrays]

lemma drawVertices_shaderApply_before (env : Env) (s : RenderTarget) (verts : List Vertex)
    (n : Nat) (pt : PrimitiveType) (st : RenderStates) (hn : n ≠ 0)
    (hGl : s.cache.glStatesSet = true) (x : Shader)
    (hx : st.shader = some x ∨ (st.shader = none ∧ s.defaultShader = some x)) :
    GLCall.applyShaderCall (some x)
      ∈ (drawVertices env true s (some verts) n pt st).2.takeWhile
          (fun c => !c.isDrawArrays) := by
  have hr1 := maybeReset_of_glStatesSet env s hGl
  simp only [drawVertices, hr1, hn, List.nil_append, ite_false, ite_true, if_neg, if_pos]
  simp only [List.append_assoc]
  apply mem_takeWhile_append₃ (arrayTransform_nonDraw _ _ _ _ _)
    (applyStatesBlock_nonDraw _ _ _) (unbindStep_nonDraw _)
  apply applyShader_mem_ASB
  rcases hx with h | ⟨h1, h2⟩
  · exact Or.inl h
  · exact Or.inr ⟨h1, by simp [h2]⟩

lemma drawVertexBufferOp_shaderApply_before (env : Env) (s : RenderTarget)
    (b : VertexBuffer) (st : RenderStates) (hb : b.vertexCount ≠ 0)
    (hGl : s.cache.glStatesSet = true) (x : Shader)
    (hx : st.shader = some x ∨ (st.shader = none ∧ s.defaultShader = some x)) :
    GLCall.applyShaderCall (some x)
      ∈ (drawVertexBufferOp env true s b st).2.takeWhile
          (fun c => !c.isDrawArrays) := by
  have hr1 := maybeReset_of_glStatesSet env s hGl
  simp only [drawVertexBufferOp, hr1, hb, List.nil_append, ite_false, ite_true, if_neg, if_pos]
  simp only [List.append_assoc]
  apply mem_takeWhile_append₃ (applyTransform_nonDraw _ _)
    (applyStatesBlock_nonDraw _ _ _) (bindStep_nonDraw _ _)
  apply applyShader_mem_ASB
  rcases hx with h | ⟨h1, h2⟩
  · exact Or.inl h
  · exact Or.inr ⟨h1, by simp [h2]⟩

lemma drawVertices_no_shaderApply (env : Env) (s : RenderTarget) (verts : List Vertex)
    (n : Nat) (pt : PrimitiveType) (st : RenderStates) (hn : n ≠ 0)
    (hGl : s.cache.glStatesSet = true)
    (hsh : st.shader = none) (hleg : s.defaultShader = none) :
    (drawVertices env true s (some verts) n pt st).2.filter GLCall.isApplyShader = [] := by
  simp [drawVertices, hn, maybeReset_of_glStatesSet env s hGl, applyStatesBlock_snd,
    hsh, hleg, GLCall.isApplyShader]

lemma drawVertexBufferOp_no_shaderApply (env : Env) (s : RenderTarget) (b : VertexBuffer)
    (st : RenderStates) (hb : b.vertexCount ≠ 0)
    (hGl : s.cache.glStatesSet = true)
    (hsh : st.shader = none) (hleg : s.defaultShader = none) :
    (drawVertexBufferOp env true s b st).2.filter GLCall.isApplyShader = [] := by
  simp [drawVertexBufferOp, hb, maybeReset_of_glStatesSet env s hGl, applyStatesBlock_snd,
    hsh, hleg, GLCall.isApplyShader]

lemma drawVertices_draw_mem (env : Env) (s : RenderTarget) (verts : List Vertex)
    (n : Nat) (pt : PrimitiveType) (st : RenderStates) (hn : n ≠ 0)
    (hGl : s.cache.glStatesSet = true) :
    GLCall.drawArrays pt n ∈ (drawVertices env true s (some verts) n pt st).2 := by
  simp [drawVertices, hn, maybeReset_of_glStatesSet env s hGl, List.mem_append]

lemma drawVertexBufferOp_draw_mem (env : Env) (s : RenderTarget) (b : VertexBuffer)
    (st : RenderStates) (hb : b.vertexCount ≠ 0)
    (hGl : s.cache.glStatesSet = true) :
    GLCall.drawArrays b.primitiveType b.vertexCount
      ∈ (drawVertexBufferOp env true s b st).2 := by
  simp [drawVertexBufferOp, hb, maybeReset_of_glStatesSet env s hGl, List.mem_append]

lemma drawVertices_legacy_unbind (env : Env) (s : RenderTarget) (verts : List Vertex)
    (n : Nat) (pt : PrimitiveType) (st : RenderStates) (hn : n ≠ 0)
    (hGl : s.cache.glStatesSet = true) (hleg : s.defaultShader = none) (sh : Shader)
    (hov : st.shader = some sh) :
    GLCall.applyShaderCall none
      ∈ (drawVertices env true s (some verts) n pt st).2.dropWhile
          (fun c => !c.isDrawArrays)
    ∧ (drawVertices env true s (some verts) n pt st).1.boundShader = none := by
  constructor
  · have hr1 := maybeReset_of_glStatesSet env s hGl
    simp only [drawVertices, hr1, hn, List.nil_append, ite_false, ite_true, if_neg, if_pos,
      hov, Option.isSome_some]
    simp only [List.append_assoc]
    apply mem_dropWhile_append₃ (arrayTransform_nonDraw _ _ _ _ _)
      (applyStatesBlock_nonDraw _ _ _) (unbindStep_nonDraw _)
    exact unbind_mem_dropWhile_arrayEmit _ _ _ _ _ _ (by simp [hleg])
  · simp [drawVertices, hn, maybeReset_of_glStatesSet env s hGl, hleg, hov]

lemma drawVertexBufferOp_legacy_unbind (env : Env) (s : RenderTarget) (b : VertexBuffer)
    (st : RenderStates) (hb : b.vertexCount ≠ 0)
    (hGl : s.cache.glStatesSet = true) (hleg : s.defaultShader = none) (sh : Shader)
    (hov : st.shader = some sh) :
    GLCall.applyShaderCall none
      ∈ (drawVertexBufferOp env true s b st).2.dropWhile
          (fun c => !c.isDrawArrays)
    ∧ (drawVertexBufferOp env true s b st).1.boundShader = none := by
  constructor
  · have hr1 := maybeReset_of_glStatesSet env s hGl
    simp only [drawVertexBufferOp, hr1, hb, List.nil_append, ite_false, ite_true, if_neg,
      if_pos, hov, Option.isSome_some]
    simp only [List.append_assoc]
    apply mem_dropWhile_append₃ (applyTransform_nonDraw _ _)
      (applyStatesBlock_nonDraw _ _ _) (bindStep_nonDraw _ _)
    exact unbind_mem_dropWhile_bufferEmit _ _ _ (by simp [hleg])
  · simp [drawVertexBufferOp, hb, maybeReset_of_glStatesSet env s hGl, hleg, hov]


/-- Counterexample to claim C7 as stated: under the legacy pipeline with no
per-draw shader override, an executed draw issues its draw call without any
shader-apply step at all (the code skips the shader applier when there is
no override and no default shader), refuting the universal clause that a
shader-apply step precedes every draw call issued. -/
theorem claim7_counterexample :
    ((drawVertices wEnv true wTarget (some [wVertex]) 1 PrimitiveType.Triangles
        wStates).2.any GLCall.isDrawArrays = true)
    ∧ ((drawVertices wEnv true wTarget (some [wVertex]) 1 PrimitiveType.Triangles
        wStates).2.filter GLCall.isApplyShader = []) := by
  decide

/-- Claim C7 (amended): on every executed draw through either overload from
a steady state, the resolved shader binding is applied before the draw
call whenever a per-draw override is given or the shader pipeline is
active: an override is bound before the draw call; with no override under
the shader pipeline the default shader is bound before the draw call; and
only under the legacy pipeline with no override does no shader-apply step
occur. A draw call is issued in every case. -/
theorem claim7_shader_binding (env : Env) (s : RenderTarget) (cmd : DrawCmd)
    (h : cmdExecutes cmd = true) (hGl : s.cache.glStatesSet = true) :
    (∀ sh, (cmdStates cmd).shader = some sh →
       GLCall.applyShaderCall (some sh)
         ∈ (drawCmd env true s cmd).2.takeWhile (fun c => !c.isDrawArrays))
    ∧ (∀ d, (cmdStates cmd).shader = none → s.defaultShader = some d →
       GLCall.applyShaderCall (some d)
         ∈ (drawCmd env true s cmd).2.takeWhile (fun c => !c.isDrawArrays))
    ∧ ((cmdStates cmd).shader = none → s.defaultShader = none →
       (drawCmd env true s cmd).2.filter GLCall.isApplyShader = [])
    ∧ GLCall.drawArrays (cmdPType cmd) (cmdCount cmd) ∈ (drawCmd env true s cmd).2 := by
  cases cmd with
  | array v n pt st =>
    obtain ⟨verts, rfl⟩ := cmdExecutes_array_some h
    have hn := cmdExecutes_array_count h
    exact ⟨fun sh hsh =>
             drawVertices_shaderApply_before env s verts n pt st hn hGl sh (Or.inl hsh),
           fun d hsh hd =>
             drawVertices_shaderApply_before env s verts n pt st hn hGl d (Or.inr ⟨hsh, hd⟩),
           fun hsh hd => drawVertices_no_shaderApply env s verts n pt st hn hGl hsh hd,
           drawVertices_draw_mem env s verts n pt st hn hGl⟩
  | buffer b st =>
    have hb := cmdExecutes_buffer_count h
    exact ⟨fun sh hsh =>
             drawVertexBufferOp_shaderApply_before env s b st hb hGl sh (Or.inl hsh),
           fun d hsh hd =>
             drawVertexBufferOp_shaderApply_before env s b st hb hGl d (Or.inr ⟨hsh, hd⟩),
           fun hsh hd => drawVertexBufferOp_no_shaderApply env s b st hb hGl hsh hd,
           drawVertexBufferOp_draw_mem env s b st hb hGl⟩

/-- Witness for the amended claim C7 at a legacy draw carrying an override. -/
theorem claim7_shader_binding_witness :
    (∀ sh, (cmdStates c7cmd).shader = some sh →
       GLCall.applyShaderCall (some sh)
         ∈ (drawCmd wEnv true wTarget c7cmd).2.takeWhile (fun c => !c.isDrawArrays))
    ∧ (∀ d, (cmdStates c7cmd).shader = none → wTarget.defaultShader = some d →
       GLCall.applyShaderCall (some d)
         ∈ (drawCmd wEnv true wTarget c7cmd).2.takeWhile (fun c => !c.isDrawArrays))
    ∧ ((cmdStates c7cmd).shader = none → wTarget.defaultShader = none →
       (drawCmd wEnv true wTarget c7cmd).2.filter GLCall.isApplyShader = [])
    ∧ GLCall.drawArrays (cmdPType c7cmd) (cmdCount c7cmd)
        ∈ (drawCmd wEnv true wTarget c7cmd).2 :=
  claim7_shader_binding wEnv wTarget c7cmd (by decide) rfl

/-- Claim C8 evaluated at the failing input: a small legacy array draw takes
the pre-transform path and sets the cache flag, and the following executed
vertex-buffer draw, which never uses that path, leaves the flag stale at
true instead of clearing it, contradicting the claimed invariant that after
a buffer-sourced draw the flag is false. -/
theorem claim8_stale_vertex_cache_flag :
    ((drawVertices wEnv true wTarget (some [wVertex]) 1 PrimitiveType.Triangles
        c8states).1.cache.useVertexCache = true)
    ∧ ((drawVertexBufferOp wEnv true
          (drawVertices wEnv true wTarget (some [wVertex]) 1 PrimitiveType.Triangles
            c8states).1 c8buffer wStates).2.any GLCall.isDrawArrays = true)
    ∧ ((drawVertexBufferOp wEnv true
          (drawVertices wEnv true wTarget (some [wVertex]) 1 PrimitiveType.Triangles
            c8states).1 c8buffer wStates).1.cache.useVertexCache = true) := by
  decide

/-- Claim C10: under the legacy pipeline, a per-draw shader override is
bound before the draw call and unbound (a null shader applied) after it,
on both overloads, and no shader remains bound when the draw returns. -/
theorem claim10_legacy_override_unbound (env : Env) (s : RenderTarget) (cmd : DrawCmd)
    (sh : Shader) (h : cmdExecutes cmd = true) (hGl : s.cache.glStatesSet = true)
    (hleg : s.defaultShader = none) (hov : (cmdStates cmd).shader = some sh) :
    GLCall.applyShaderCall (some sh)
      ∈ (drawCmd env true s cmd).2.takeWhile (fun c => !c.isDrawArrays)
    ∧ GLCall.applyShaderCall none
      ∈ (drawCmd env true s cmd).2.dropWhile (fun c => !c.isDrawArrays)
    ∧ (drawCmd env true s cmd).1.boundShader = none := by
  cases cmd with
  | array v n pt st =>
    obtain ⟨verts, rfl⟩ := cmdExecutes_array_some h
    have hn := cmdExecutes_array_count h
    obtain ⟨hdrop, hbound⟩ := drawVertices_legacy_unbind env s verts n pt st hn hGl hleg sh hov
    exact ⟨drawVertices_shaderApply_before env s verts n pt st hn hGl sh (Or.inl hov),
           hdrop, hbound⟩
  | buffer b st =>
    have hb := cmdExecutes_buffer_count h
    obtain ⟨hdrop, hbound⟩ := drawVertexBufferOp_legacy_unbind env s b st hb hGl hleg sh hov
    exact ⟨drawVertexBufferOp_shaderApply_before env s b st hb hGl sh (Or.inl hov),
           hdrop, hbound⟩

/-- Witness for claim C10 at a legacy buffer draw carrying an override. -/
theorem claim10_legacy_override_unbound_witness :
    GLCall.applyShaderCall (some ⟨50⟩)
      ∈ (drawCmd wEnv true wTarget c10cmd).2.takeWhile (fun c => !c.isDrawArrays)
    ∧ GLCall.applyShaderCall none
      ∈ (drawCmd wEnv true wTarget c10cmd).2.dropWhile (fun c => !c.isDrawArrays)
    ∧ (drawCmd wEnv true wTarget c10cmd).1.boundShader = none :=
  claim10_legacy_override_unbound wEnv wTarget c10cmd ⟨50⟩ (by decide) rfl rfl rfl

end SFMLRT
